import Mathlib

/-!
# smartapigo/websocket: the reconnecting ticker client

A shallow embedding of `websocket/websocket.go`: the retry-policy setters, the
`Serve` loop, the two session goroutines `readMessage` and `checkConnection`,
and the trigger functions.  Effects are recorded as a list of `Event`s, in
program order; everything the Go code obtains from outside (dial, socket read
and write results, the base64/zlib/json library calls) is supplied as input.
Two panics are part of the model: a deferred `Close` on a nil connection when
Serve returns, and `wg.Done()` on a WaitGroup counter that goes negative.

`time.Duration` is an `int64` count of nanoseconds; it is an `Int` here and
products are reduced with `wrapInt64`.
-/

namespace Websocket

/-! ## Durations and the constants of websocket.go 43-55 -/

/-- A `time.Duration`: nanoseconds. -/
abbrev Duration := Int

/-- Two's-complement reduction of an integer to the `int64` range. -/
def wrapInt64 (x : Int) : Int := (x + 2 ^ 63) % 2 ^ 64 - 2 ^ 63

def Millisecond : Duration := 1000000

def Second : Duration := 1000000000

/-- Default maximum number of reconnect attempts (line 46). -/
def defaultReconnectMaxAttempts : Int := 300

/-- Auto reconnect min delay: "Reconnect delay can't be less than this" (line 48). -/
def reconnectMinDelay : Duration := 5000 * Millisecond

/-- Default auto reconnect delay (line 50). -/
def defaultReconnectMaxDelay : Duration := 60000 * Millisecond

/-- Connect timeout for the initial server handshake (line 52). -/
def defaultConnectTimeout : Duration := 7000 * Millisecond

/-- Interval of the periodic connection check (line 54). -/
def connectionCheckInterval : Duration := 60000 * Millisecond

/-! ## Data model -/

/-- Error values: the ones websocket.go builds with `fmt.Errorf`, and the ones
handed back by a library call (dial, read, write, zlib, json), told apart by a
number. -/
inductive Error where
  | ext (id : Nat)
  | invalidMessage
  | invalidFeedToken
  | readingData (cause : Error)
  | maxDelayBelowMin
  deriving DecidableEq, Repr

/-- A decoded JSON value (`interface{}` after `json.Unmarshal`). -/
inductive Value where
  | null
  | bool (b : Bool)
  | num (n : Int)
  | str (s : String)
  | arr (items : List Value)
  | obj (fields : List (String × Value))

/-- The Go comparison `val == "nk"` on an `interface{}`: true only for a string
with that content. -/
def Value.eqString : Value → String → Bool
  | Value.str s, t => s == t
  | _, _ => false

/-- A `map[string]interface{}`, as an association list read with `List.lookup`. -/
abbrev Record := List (String × Value)

abbrev Bytes := List Nat

/-- A `*websocket.Conn` handle; `none` in an `Option ConnId` is the nil pointer. -/
abbrev ConnId := Nat

/-- Which callback slots are set (websocket.go 34-41). -/
structure callbacks where
  onMessage : Bool := false
  onNoReconnect : Bool := false
  onReconnect : Bool := false
  onConnect : Bool := false
  onClose : Bool := false
  onError : Bool := false

/-- The `SocketClient` struct (websocket.go 18-30). -/
structure SocketClient where
  Conn : Option ConnId
  url : String
  callbacks : callbacks
  autoReconnect : Bool
  reconnectMaxRetries : Int
  reconnectMaxDelay : Duration
  connectTimeout : Duration
  reconnectAttempt : Int
  scrips : String
  feedToken : String
  clientCode : String

/-- The default ticker url (line 59). -/
def tickerURL : String := "wss://omnefeeds.angelbroking.com/NestHtml5Mobile/socket/stream"

/-- `New` (websocket.go 63-76). -/
def New (clientCode feedToken scrips : String) : SocketClient :=
  { Conn := none
    url := tickerURL
    callbacks := {}
    autoReconnect := true
    reconnectMaxRetries := defaultReconnectMaxAttempts
    reconnectMaxDelay := defaultReconnectMaxDelay
    connectTimeout := defaultConnectTimeout
    reconnectAttempt := 0
    scrips := scrips
    feedToken := feedToken
    clientCode := clientCode }

/-- `SetAutoReconnect` (lines 94-96). -/
def SetAutoReconnect (s : SocketClient) (val : Bool) : SocketClient :=
  { s with autoReconnect := val }

/-- `SetReconnectMaxRetries` (lines 109-111). -/
def SetReconnectMaxRetries (s : SocketClient) (val : Int) : SocketClient :=
  { s with reconnectMaxRetries := val }

/-- `SetReconnectMaxDelay` (lines 99-106): the updated client and the returned
error (`none` is nil).  The guard is the source's `val > reconnectMinDelay`. -/
def SetReconnectMaxDelay (s : SocketClient) (val : Duration) : SocketClient × Option Error :=
  if val > reconnectMinDelay then
    (s, some Error.maxDelayBelowMin)
  else
    ({ s with reconnectMaxDelay := val }, none)

/-! ## Library calls made by websocket.go -/

/-- The library functions websocket.go calls on frame contents, and the one
platform-dependent conversion it relies on. -/
structure Lib where
  /-- `base64.StdEncoding.DecodeString`; both call sites drop its error. -/
  base64Decode : Bytes → Bytes
  /-- `zlib.NewReader` followed by `ioutil.ReadAll`. -/
  zlibInflate : Bytes → Except Error Bytes
  /-- `json.Unmarshal` into a `[]map[string]interface{}`. -/
  jsonUnmarshal : Bytes → Except Error (List Record)
  /-- Result of converting a float64 of at least 2^63 to int64, which Go leaves
  to the platform. -/
  floatOverflow : Int

/-- `readSegment` (websocket.go 383-395). -/
def readSegment (lib : Lib) (data : Bytes) : Except Error Bytes :=
  lib.zlibInflate data

/-! ## Backoff delay (Serve, lines 155-158) -/

/-- `time.Duration(math.Pow(2, float64(attempt)))` for `attempt > 0`: the power
of two is exact in float64 and fits int64 up to 2^62. -/
def powDuration (lib : Lib) (attempt : Int) : Int :=
  if attempt ≤ 62 then 2 ^ attempt.toNat else lib.floatOverflow

/-- The `nextDelay` of Serve: the power of two times `time.Second` in int64,
replaced by `reconnectMaxDelay` when larger. -/
def nextDelay (lib : Lib) (s : SocketClient) : Duration :=
  let d := wrapInt64 (powDuration lib s.reconnectAttempt * Second)
  if d > s.reconnectMaxDelay then s.reconnectMaxDelay else d

/-- The delay Serve computes when the attempt counter is `attempt`. -/
def delayAt (lib : Lib) (s : SocketClient) (attempt : Int) : Duration :=
  nextDelay lib { s with reconnectAttempt := attempt }

/-! ## Events -/

/-- An outbound control frame: the JSON text written by Serve, checkConnection
and Subscribe, field by field. -/
structure Frame where
  task : String
  channel : String
  token : String
  user : String
  acctid : String
  deriving DecidableEq, Repr

/-- The control frame for a task kind and channel: `user` and `acctid` both
carry the client code (lines 186, 308, 369). -/
def controlFrame (s : SocketClient) (task channel : String) : Frame :=
  { task := task, channel := channel, token := s.feedToken,
    user := s.clientCode, acctid := s.clientCode }

/-- The two goroutines Serve starts per session. -/
inductive Task where
  | readMessage
  | checkConnection
  deriving DecidableEq, Repr

/-- One observable action of the client.  A `trigger*` event is a call of the
trigger function of that name; `connClose`, `write` and `read` carry the
receiver (`none` is a nil `*websocket.Conn`). -/
inductive Event where
  | triggerError (err : Error)
  | triggerConnect
  | triggerReconnect (attempt : Int) (delay : Duration)
  | triggerNoReconnect (attempt : Int)
  | triggerMessage (message : List Record)
  | sleep (d : Duration)
  | dial (url : String) (timeout : Duration)
  | write (c : Option ConnId) (f : Frame)
  | read (c : Option ConnId)
  | connClose (c : Option ConnId)
  | deferredClose (c : Option ConnId)
  | setConn (c : ConnId)
  | setAttempt (v : Int)
  | setCloseHandler
  | wgAdd
  | wgDone
  | wgWait
  | go (t : Task)

/-- The handler of a trigger call runs only when its slot is set
(websocket.go 267-301); every other event is not a handler call. -/
def handlerRuns (cb : callbacks) : Event → Bool
  | Event.triggerError _ => cb.onError
  | Event.triggerConnect => cb.onConnect
  | Event.triggerReconnect _ _ => cb.onReconnect
  | Event.triggerNoReconnect _ => cb.onNoReconnect
  | Event.triggerMessage _ => cb.onMessage
  | _ => false

/-! ### Reading a trace -/

def Event.isTriggerError : Event → Bool
  | Event.triggerError _ => true
  | _ => false

def Event.isTriggerConnect : Event → Bool
  | Event.triggerConnect => true
  | _ => false

def Event.isTriggerReconnect : Event → Bool
  | Event.triggerReconnect _ _ => true
  | _ => false

def Event.isTriggerNoReconnect : Event → Bool
  | Event.triggerNoReconnect _ => true
  | _ => false

def Event.isTriggerMessage : Event → Bool
  | Event.triggerMessage _ => true
  | _ => false

def Event.isSleep : Event → Bool
  | Event.sleep _ => true
  | _ => false

def Event.isDial : Event → Bool
  | Event.dial _ _ => true
  | _ => false

def Event.isRead : Event → Bool
  | Event.read _ => true
  | _ => false

def Event.isWrite : Event → Bool
  | Event.write _ _ => true
  | _ => false

def Event.isGo : Event → Bool
  | Event.go _ => true
  | _ => false

def Event.isWgDone : Event → Bool
  | Event.wgDone => true
  | _ => false

def Event.isSetAttempt : Event → Bool
  | Event.setAttempt _ => true
  | _ => false

/-- The reset of the attempt counter (line 239). -/
def Event.isReset : Event → Bool
  | Event.setAttempt v => v == 0
  | _ => false

/-- A write of the subscription frame (task kind `mw`), as made by Subscribe. -/
def Event.isSubscribeWrite : Event → Bool
  | Event.write _ f => f.task == "mw"
  | _ => false

/-- The errors passed to triggerError, in order. -/
def errorsOf (tr : List Event) : List Error :=
  tr.filterMap fun e => match e with
    | Event.triggerError err => some err
    | _ => none

/-- The arguments of the triggerReconnect calls, in order. -/
def reconnectsOf (tr : List Event) : List (Int × Duration) :=
  tr.filterMap fun e => match e with
    | Event.triggerReconnect a d => some (a, d)
    | _ => none

/-- The arguments of the triggerMessage calls, in order. -/
def messagesOf (tr : List Event) : List (List Record) :=
  tr.filterMap fun e => match e with
    | Event.triggerMessage m => some m
    | _ => none

/-- In `tr`, no `q` event occurs unless a `p` event has occurred earlier. -/
def precedes (p q : Event → Bool) : List Event → Bool
  | [] => true
  | e :: tr => if p e then true else if q e then false else precedes p q tr

/-! ## Serve (websocket.go 144-259) -/

/-- What the outside world does in one iteration of the Serve loop: the result
of `d.Dial`, of the `cn` write, of the read of the reply, and of the write made
by Resubscribe.  Entries past the first failure are not looked at. -/
structure Attempt where
  dial : Except Error ConnId
  authWrite : Option Error
  authRead : Except Error Bytes
  resubWrite : Option Error

/-- The variables of a running Serve: the client, the receivers of the pending
`defer s.Conn.Close()` calls (latest first), and the WaitGroup counter of the
current iteration. -/
structure ServeState where
  s : SocketClient
  deferred : List (Option ConnId)
  wg : Int

/-- How one pass through the loop body ends. -/
inductive Ctl where
  | next
  | ret
  | wait
  deriving DecidableEq, Repr

structure Step where
  st : ServeState
  trace : List Event
  ctl : Ctl

/-- Lines 154-168: on a reconnect, the reconnect callback, the sleep and the
close of the previous connection. -/
def backoff (lib : Lib) (s : SocketClient) : List Event :=
  if s.reconnectAttempt > 0 then
    [Event.triggerReconnect s.reconnectAttempt (nextDelay lib s), Event.sleep (nextDelay lib s)]
      ++ (match s.Conn with
          | some c => [Event.connClose (some c)]
          | none => [])
  else []

/-- Lines 198-201: the decoding of the handshake reply.  The error of
`readSegment` is overwritten unread, so a failed inflate hands a nil slice to
`json.Unmarshal`. -/
def decodeReply (lib : Lib) (message : Bytes) : Except Error (List Record) :=
  let sDec := lib.base64Decode message
  let val := match readSegment lib sDec with
    | Except.ok p => p
    | Except.error _ => []
  lib.jsonUnmarshal val

/-- The `ak` field of the first record of a decoded frame, when there is one. -/
def firstAk (records : List Record) : Option Value :=
  match records with
  | [] => none
  | r :: _ => r.lookup "ak"

/-- Lines 207-222: the checks on the decoded handshake reply; `none` lets
Serve go on. -/
def handshakeCheck (result : List Record) : Option Error :=
  match result with
  | [] => some Error.invalidMessage
  | r :: _ =>
    match r.lookup "ak" with
    | none => some Error.invalidMessage
    | some v => if v.eqString "nk" then some Error.invalidFeedToken else none

/-- `Subscribe` (lines 368-376), given the result of its write. -/
def Subscribe (s : SocketClient) (w : Option Error) : List Event × Option Error :=
  match w with
  | some err => ([Event.write s.Conn (controlFrame s "mw" s.scrips), Event.triggerError err], some err)
  | none => ([Event.write s.Conn (controlFrame s "mw" s.scrips)], none)

/-- `Resubscribe` (lines 378-381). -/
def Resubscribe (s : SocketClient) (w : Option Error) : List Event × Option Error :=
  Subscribe s w

/-- Lines 224-257: the successful end of the handshake, up to `wg.Wait()`. -/
def startSession (st : ServeState) (conn : ConnId) (resubWrite : Option Error) : Step :=
  let s := st.s
  let deferred := s.Conn :: st.deferred
  let s1 := { s with Conn := some conn }
  let resub := if s1.reconnectAttempt > 0 then (Resubscribe s1 resubWrite).1 else []
  let s2 := { s1 with reconnectAttempt := 0 }
  let tasks :=
    [Event.wgAdd, Event.go Task.readMessage]
      ++ (if s2.autoReconnect then [Event.wgAdd, Event.go Task.checkConnection] else [])
  { st := { s := s2, deferred := deferred, wg := if s2.autoReconnect then 2 else 1 }
    trace := [Event.setConn conn, Event.triggerConnect] ++ resub
      ++ [Event.setAttempt 0, Event.setCloseHandler] ++ tasks ++ [Event.wgWait]
    ctl := Ctl.wait }

/-- Lines 153-257: one pass through the loop body after the give-up test. -/
def connect (lib : Lib) (a : Attempt) (st : ServeState) : Step :=
  let s := st.s
  let pre := backoff lib s ++ [Event.dial s.url s.connectTimeout]
  match a.dial with
  | Except.error err =>
    if s.autoReconnect then
      { st := { st with s := { s with reconnectAttempt := s.reconnectAttempt + 1 } }
        trace := pre ++ [Event.triggerError err, Event.setAttempt (s.reconnectAttempt + 1)]
        ctl := Ctl.next }
    else
      { st := st, trace := pre ++ [Event.triggerError err], ctl := Ctl.ret }
  | Except.ok conn =>
    let w := Event.write (some conn) (controlFrame s "cn" "")
    match a.authWrite with
    | some err => { st := st, trace := pre ++ [w, Event.triggerError err], ctl := Ctl.ret }
    | none =>
      let r := Event.read (some conn)
      match a.authRead with
      | Except.error err =>
        { st := st, trace := pre ++ [w, r, Event.triggerError err], ctl := Ctl.ret }
      | Except.ok message =>
        match decodeReply lib message with
        | Except.error err =>
          { st := st, trace := pre ++ [w, r, Event.triggerError err], ctl := Ctl.ret }
        | Except.ok result =>
          match handshakeCheck result with
          | some err =>
            { st := st, trace := pre ++ [w, r, Event.triggerError err], ctl := Ctl.ret }
          | none =>
            let k := startSession st conn a.resubWrite
            { k with trace := pre ++ [w, r] ++ k.trace }

/-- How a run of Serve ends: it returned, it ended in a panic, it is blocked in
`wg.Wait()`, or the script of outside responses ran out before any of these. -/
inductive Outcome where
  | returned
  | panicked
  | waiting
  | pending
  deriving DecidableEq, Repr

/-- The run of Serve is over: no further iteration follows. -/
def Outcome.ended : Outcome → Bool
  | Outcome.returned => true
  | Outcome.panicked => true
  | _ => false

structure Run where
  st : ServeState
  trace : List Event
  outcome : Outcome

/-- The deferred `Close` calls, made latest first when Serve executes a
`return`; each is made, also after an earlier one has panicked. -/
def runDeferred (st : ServeState) : List Event :=
  st.deferred.map Event.deferredClose

/-- A deferred `Close` whose receiver is nil: `defer s.Conn.Close()` (line 225)
comes before `s.Conn = conn` (line 228), so it captures the previous value of
`s.Conn`, nil for the first session of a client made by New.  The library
method dereferences its receiver, so that call panics. -/
def deferredPanics (st : ServeState) : Bool :=
  st.deferred.any Option.isNone

/-- How Serve ends when it executes a `return`: the deferred calls run, and
Serve has returned unless one of them panics. -/
def exitOutcome (st : ServeState) : Outcome :=
  if deferredPanics st then Outcome.panicked else Outcome.returned

/-- Lines 148-151: the give-up exit. -/
def giveUp (st : ServeState) : Run :=
  { st := st
    trace := Event.triggerNoReconnect st.s.reconnectAttempt :: runDeferred st
    outcome := exitOutcome st }

/-- The Serve loop, from a state at the top of the loop, against a script with
one entry per dial, up to its return or its first `wg.Wait()`. -/
def Serve (lib : Lib) : List Attempt → ServeState → Run
  | [], st =>
    if st.s.reconnectAttempt > st.s.reconnectMaxRetries then giveUp st
    else { st := st, trace := [], outcome := Outcome.pending }
  | a :: rest, st =>
    if st.s.reconnectAttempt > st.s.reconnectMaxRetries then giveUp st
    else
      let r := connect lib a st
      match r.ctl with
      | Ctl.next =>
        let k := Serve lib rest r.st
        { k with trace := r.trace ++ k.trace }
      | Ctl.ret => { st := r.st, trace := r.trace ++ runDeferred r.st, outcome := exitOutcome r.st }
      | Ctl.wait => { st := r.st, trace := r.trace, outcome := Outcome.waiting }

/-- Serve called on a client: nothing deferred yet. -/
def ServeState.init (s : SocketClient) : ServeState :=
  { s := s, deferred := [], wg := 0 }

/-! ## The session goroutines -/

/-- What the two goroutines share: the client and the WaitGroup counter. -/
structure Shared where
  s : SocketClient
  wg : Int

/-- One pass through a goroutine's loop body: `returned` tells whether the
function returned instead of looping, `panicked` whether the pass ended in a
panic (which takes the whole program down). -/
structure TaskRun where
  sh : Shared
  trace : List Event
  returned : Bool
  panicked : Bool := false

/-- `wg.Done()` takes one off the counter and panics when the result is
negative. -/
def doneIsNegative (wg : Int) : Bool := decide (wg - 1 < 0)

/-- Lines 345-357 of readMessage: what is done with a decoded frame. -/
def deliver (finalMessage : List Record) : List Event :=
  match finalMessage with
  | [] => []
  | r :: _ =>
    match r.lookup "ak" with
    | some v => if v.eqString "nk" then [Event.triggerError Error.invalidFeedToken] else []
    | none => [Event.triggerMessage finalMessage]

/-- One pass through the loop of `readMessage` (lines 323-359), given the
result of `s.Conn.ReadMessage()`. -/
def readMessageBody (lib : Lib) (r : Except Error Bytes) (sh : Shared) : TaskRun :=
  let rd := Event.read sh.s.Conn
  match r with
  | Except.error err =>
    { sh := { sh with wg := sh.wg - 1 }
      trace := [rd, Event.triggerError (Error.readingData err), Event.wgDone]
      returned := !doneIsNegative sh.wg
      panicked := doneIsNegative sh.wg }
  | Except.ok msg =>
    let sDec := lib.base64Decode msg
    match readSegment lib sDec with
    | Except.error err => { sh := sh, trace := [rd, Event.triggerError err], returned := true }
    | Except.ok val =>
      match lib.jsonUnmarshal val with
      | Except.error err => { sh := sh, trace := [rd, Event.triggerError err], returned := true }
      | Except.ok finalMessage =>
        { sh := sh, trace := rd :: deliver finalMessage, returned := false }

/-- One pass through the loop of `checkConnection` (lines 305-318), given the
result of the heartbeat write.  The body has no `return`. -/
def checkConnectionBody (w : Option Error) (sh : Shared) : TaskRun :=
  let s := sh.s
  let pre := [Event.sleep connectionCheckInterval, Event.write s.Conn (controlFrame s "hb" "")]
  match w with
  | some err =>
    { sh := { s := { s with reconnectAttempt := s.reconnectAttempt + 1 }, wg := sh.wg - 1 }
      trace := pre ++ [Event.triggerError err]
        ++ (match s.Conn with
            | some c => [Event.connClose (some c)]
            | none => [])
        ++ [Event.setAttempt (s.reconnectAttempt + 1), Event.wgDone]
      returned := false
      panicked := doneIsNegative sh.wg }
  | none => { sh := sh, trace := pre, returned := false }

/-- The goroutine `readMessage` against the results of its successive reads;
when they run out it is blocked in the next read. -/
def readMessage (lib : Lib) : List (Except Error Bytes) → Shared → TaskRun
  | [], sh => { sh := sh, trace := [], returned := false }
  | r :: rest, sh =>
    let b := readMessageBody lib r sh
    if b.returned || b.panicked then b
    else
      let k := readMessage lib rest b.sh
      { k with trace := b.trace ++ k.trace }

/-- The goroutine `checkConnection` against the results of its successive
heartbeat writes; when they run out it is in its next sleep. -/
def checkConnection : List (Option Error) → Shared → TaskRun
  | [], sh => { sh := sh, trace := [], returned := false }
  | w :: rest, sh =>
    let b := checkConnectionBody w sh
    if b.returned || b.panicked then b
    else
      let k := checkConnection rest b.sh
      { k with trace := b.trace ++ k.trace }

/-- A session: the shared variables and which goroutines are live.
`reading` is false once readMessage has returned; `checking` tells whether
checkConnection is running (it is never started with auto-reconnect off);
`crashed` is set by a panic in either goroutine, after which nothing runs. -/
structure Session where
  sh : Shared
  reading : Bool
  checking : Bool
  crashed : Bool := false

/-- The session Serve has started when it reaches `wg.Wait()`. -/
def Session.start (st : ServeState) : Session :=
  { sh := { s := st.s, wg := st.wg }, reading := true, checking := st.s.autoReconnect }

/-- One scheduling step: a goroutine runs one pass of its loop. -/
inductive TaskStep where
  | read (r : Except Error Bytes)
  | heartbeat (w : Option Error)

/-- A scheduling step on a session; a step of a goroutine that is not live
does nothing. -/
def Session.step (lib : Lib) (x : Session) : TaskStep → Session × List Event
  | TaskStep.read r =>
    if x.reading then
      let b := readMessageBody lib r x.sh
      ({ sh := b.sh
         reading := !b.returned && !b.panicked
         checking := x.checking && !b.panicked
         crashed := x.crashed || b.panicked }, b.trace)
    else (x, [])
  | TaskStep.heartbeat w =>
    if x.checking then
      let b := checkConnectionBody w x.sh
      ({ sh := b.sh
         reading := x.reading && !b.panicked
         checking := !b.panicked
         crashed := x.crashed || b.panicked }, b.trace)
    else (x, [])

/-- A schedule of goroutine steps, run from a session. -/
def Session.run (lib : Lib) : List TaskStep → Session → Session × List Event
  | [], x => (x, [])
  | t :: rest, x =>
    let a := Session.step lib x t
    let k := Session.run lib rest a.1
    (k.1, a.2 ++ k.2)

/-- `wg.Wait()` returns once the counter is zero. -/
def Session.joined (x : Session) : Bool := x.sh.wg == 0

/-- Serve after the join: the loop is re-entered with the client as the
session left it. -/
def ServeState.afterJoin (st : ServeState) (x : Session) : ServeState :=
  { st with s := x.sh.s, wg := x.sh.wg }

/-! ## Serve across a failure streak and across the join -/

/-- The state after a failed dial with auto-reconnect on (line 180). -/
def ServeState.advance (st : ServeState) (n : Nat) : ServeState :=
  { st with s := { st.s with reconnectAttempt := st.s.reconnectAttempt + n } }

/-- The errors Resubscribe reports for the result of its write. -/
def resubErrors (w : Option Error) : List Error :=
  match w with
  | some err => [err]
  | none => []

/-- The state in which Serve re-enters its loop when `wg.Wait()` returns: the
state it blocked in, with the client as the session's goroutines left it after
the schedule `sched`. -/
def resume (lib : Lib) (script : List Attempt) (st0 : ServeState) (sched : List TaskStep) :
    ServeState :=
  (Serve lib script st0).st.afterJoin
    (Session.run lib sched (Session.start (Serve lib script st0).st)).1

/-! ## A library stand-in for the examples -/

/-- Frames used in the examples: base64 is the identity, inflating fails on the
empty payload, and a payload of one byte selects the decoded records. -/
def exampleLib : Lib where
  base64Decode := id
  zlibInflate := fun b => if b = [] then Except.error (Error.ext 10) else Except.ok b
  jsonUnmarshal := fun b =>
    match b with
    | [0] => Except.ok []
    | [1] => Except.ok [[("ak", Value.str "nk")]]
    | [2] => Except.ok [[("ak", Value.str "ok")]]
    | [3] => Except.ok [[("tk", Value.str "3045"), ("ltp", Value.num 100)]]
    | [4] => Except.ok [[("tk", Value.str "3045")], [("ak", Value.str "nk")]]
    | _ => Except.error (Error.ext 11)
  floatOverflow := -(2 ^ 63)

/-! ## Example inputs -/

/-- A client that never connected and has used up its 300 retries: 301 failed
dials since New, nothing deferred. -/
def exhaustedState : ServeState :=
  { s := { New "c" "t" "nse_cm|3045" with reconnectAttempt := 301 }
    deferred := []
    wg := 0 }

/-- A client that has used up its 300 retries after a session: the connection
of that session is still in Conn, and the `defer` of its iteration holds the
nil receiver. -/
def exhaustedAfterSession : ServeState :=
  { s := { New "c" "t" "nse_cm|3045" with reconnectAttempt := 301, Conn := some 7 }
    deferred := [none]
    wg := 0 }

/-- A script entry whose dial, `cn` write and read succeed, the reply being
the one-byte payload `b`. -/
def replyAttempt (b : Nat) : Attempt :=
  { dial := Except.ok 7, authWrite := none, authRead := Except.ok [b], resubWrite := none }

/-- A client that has not connected yet, two failed dials so far. -/
def streakState : ServeState :=
  { s := { New "c" "t" "nse_cm|3045" with reconnectAttempt := 2 }
    deferred := []
    wg := 0 }

/-- A client in a failure streak after a session on connection 3: two failed
dials so far, and the `defer` of the session's iteration holds the nil
receiver. -/
def retryingState : ServeState :=
  { s := { New "c" "t" "nse_cm|3045" with reconnectAttempt := 2, Conn := some 3 }
    deferred := [none]
    wg := 0 }

/-- A running session of a fresh client on connection 7, both goroutines
registered on the WaitGroup. -/
def liveShared : Shared :=
  { s := { New "c" "t" "nse_cm|3045" with Conn := some 7 }, wg := 2 }

/-- A session as Serve starts it with auto-reconnect off: only readMessage
runs and the WaitGroup counter is 1. -/
def readOnlySession : Session :=
  Session.start
    { s := { SetAutoReconnect (New "c" "t" "nse_cm|3045") false with Conn := some 7 }
      deferred := [none]
      wg := 1 }

/-- A script entry whose dial fails with the library error number `n`. -/
def dialFails (n : Nat) : Attempt :=
  { dial := Except.error (Error.ext n), authWrite := none,
    authRead := Except.error (Error.ext n), resubWrite := none }

/-- The end-to-end scenario of the spec: at most 2 retries, otherwise the
defaults of New. -/
def twoRetries : ServeState :=
  ServeState.init (SetReconnectMaxRetries (New "c" "t" "nse_cm|3045") 2)

/-- A session on a fresh client in which the read fails and then the heartbeat
write fails. -/
def brokenSession : List TaskStep :=
  [TaskStep.read (Except.error (Error.ext 5)), TaskStep.heartbeat (some (Error.ext 6))]

/-! ## Configuration: SetReconnectMaxDelay -/

/-- C1 (the code departs from the claim): on a fresh client, a maximum delay of
1s, below the 5s floor, is accepted by SetReconnectMaxDelay (nil error, the
field becomes 1s), while 10s, above the floor, is rejected and the field keeps
its default of 60s. -/
theorem SetReconnectMaxDelay_guard_is_inverted :
    (SetReconnectMaxDelay (New "c" "t" "nse_cm|3045") (1 * Second)).2 = none
    ∧ (SetReconnectMaxDelay (New "c" "t" "nse_cm|3045") (1 * Second)).1.reconnectMaxDelay
        = 1 * Second
    ∧ (SetReconnectMaxDelay (New "c" "t" "nse_cm|3045") (10 * Second)).2
        = some Error.maxDelayBelowMin
    ∧ (SetReconnectMaxDelay (New "c" "t" "nse_cm|3045") (10 * Second)).1.reconnectMaxDelay
        = defaultReconnectMaxDelay := by
  decide

/-- What SetReconnectMaxDelay does on every input: values above 5s are
rejected and change nothing, values of at most 5s are stored. -/
theorem SetReconnectMaxDelay_spec (s : SocketClient) (val : Duration) :
    SetReconnectMaxDelay s val =
      if reconnectMinDelay < val then (s, some Error.maxDelayBelowMin)
      else ({ s with reconnectMaxDelay := val }, none) := by
  unfold SetReconnectMaxDelay
  rfl

/-! ## Backoff delay -/

theorem wrapInt64_of_range (x : Int) (h0 : -(2 ^ 63) ≤ x) (h1 : x < 2 ^ 63) :
    wrapInt64 x = x := by
  unfold wrapInt64
  rw [Int.emod_eq_of_lt (by omega) (by omega)]
  omega

theorem clamp_eq_min (d m : Int) : (if d > m then m else d) = min d m := by
  by_cases h : d > m
  · simp [h, min_eq_right (le_of_lt h)]
  · simp only [h, if_false]
    exact (min_eq_left (not_lt.mp h)).symm

/-- Up to attempt 33 the product fits int64 and the delay Serve computes is
min(2^attempt seconds, reconnectMaxDelay). -/
theorem nextDelay_eq_min (lib : Lib) (s : SocketClient)
    (h1 : 1 ≤ s.reconnectAttempt) (h2 : s.reconnectAttempt ≤ 33) :
    nextDelay lib s = min (2 ^ s.reconnectAttempt.toNat * Second) s.reconnectMaxDelay := by
  have hle : s.reconnectAttempt.toNat ≤ 33 := by omega
  have hpow : (2 : Int) ^ s.reconnectAttempt.toNat ≤ 2 ^ 33 :=
    pow_le_pow_right₀ (by norm_num) hle
  have hpos : (0 : Int) < 2 ^ s.reconnectAttempt.toNat := by positivity
  have hw : wrapInt64 (2 ^ s.reconnectAttempt.toNat * Second)
      = 2 ^ s.reconnectAttempt.toNat * Second := by
    apply wrapInt64_of_range
    · unfold Second; nlinarith
    · unfold Second
      calc (2 : Int) ^ s.reconnectAttempt.toNat * 1000000000
          ≤ 2 ^ 33 * 1000000000 := by nlinarith
        _ < 2 ^ 63 := by norm_num
  have hp : powDuration lib s.reconnectAttempt = 2 ^ s.reconnectAttempt.toNat := by
    unfold powDuration
    exact if_pos (by omega)
  unfold nextDelay
  simp only [hp, hw]
  exact clamp_eq_min _ _

/-- C2 (the code departs from the claim): with the default policy (maximum
delay 60s, ceiling 300) the delay Serve computes at attempt 33 is 60s, and at
attempt 34 the int64 product 2^34 * 10^9 has wrapped to a negative number of
nanoseconds, which the clamp lets through: the delay is neither min(2^34 s,
60s) nor at least the delay of attempt 33.  This holds whatever the platform
does with out-of-range float conversions. -/
theorem nextDelay_overflows_at_34 (lib : Lib) :
    (34 : Int) ≤ (New "c" "t" "nse_cm|3045").reconnectMaxRetries
    ∧ nextDelay lib { New "c" "t" "nse_cm|3045" with reconnectAttempt := 33 } = 60 * Second
    ∧ nextDelay lib { New "c" "t" "nse_cm|3045" with reconnectAttempt := 34 }
        = -1266874889709551616
    ∧ nextDelay lib { New "c" "t" "nse_cm|3045" with reconnectAttempt := 34 }
        ≠ min (2 ^ 34 * Second) (60 * Second)
    ∧ nextDelay lib { New "c" "t" "nse_cm|3045" with reconnectAttempt := 34 }
        < nextDelay lib { New "c" "t" "nse_cm|3045" with reconnectAttempt := 33 } := by
  have p33 : powDuration lib 33 = 2 ^ 33 := by
    unfold powDuration
    exact if_pos (by decide)
  have p34 : powDuration lib 34 = 2 ^ 34 := by
    unfold powDuration
    exact if_pos (by decide)
  have h33 : nextDelay lib { New "c" "t" "nse_cm|3045" with reconnectAttempt := 33 }
      = 60 * Second := by
    simp only [nextDelay, p33]
    decide
  have h34 : nextDelay lib { New "c" "t" "nse_cm|3045" with reconnectAttempt := 34 }
      = -1266874889709551616 := by
    simp only [nextDelay, p34]
    decide
  refine ⟨by decide, h33, h34, ?_, ?_⟩
  · rw [h34]; decide
  · rw [h34, h33]; decide

/-! ## Serve: giving up -/

theorem runDeferred_no_trigger (st : ServeState) :
    ∀ e ∈ runDeferred st,
      e.isDial = false ∧ e.isTriggerReconnect = false ∧ e.isSleep = false
      ∧ e.isTriggerNoReconnect = false := by
  intro e he
  unfold runDeferred at he
  obtain ⟨c, _, rfl⟩ := List.mem_map.mp he
  exact ⟨rfl, rfl, rfl, rfl⟩

theorem Serve_of_exceeded (lib : Lib) (script : List Attempt) (st : ServeState)
    (h : st.s.reconnectAttempt > st.s.reconnectMaxRetries) :
    Serve lib script st = giveUp st := by
  cases script <;> simp [Serve, h]

theorem exitOutcome_ended (st : ServeState) : (exitOutcome st).ended = true := by
  unfold exitOutcome
  split <;> rfl

theorem exitOutcome_ne_waiting (st : ServeState) : exitOutcome st ≠ Outcome.waiting := by
  unfold exitOutcome
  split <;> decide

theorem exitOutcome_of_no_nil (st : ServeState) (h : deferredPanics st = false) :
    exitOutcome st = Outcome.returned := by
  simp [exitOutcome, h]

/-- C3: when an iteration of Serve starts with reconnectAttempt above
reconnectMaxRetries, the run of Serve ends there: it makes exactly one
triggerNoReconnect call, carrying the current attempt count, and executes its
`return`; its only other actions are the deferred closes, so there is no dial,
no reconnect callback and no sleep, and the client is left as it was.  Serve
has returned when no deferred Close has a nil receiver; when one has, that
call panics and the run ends in the panic.  Nothing is assumed about
autoReconnect or about what the outside would answer. -/
theorem Serve_gives_up (lib : Lib) (script : List Attempt) (st : ServeState)
    (h : st.s.reconnectAttempt > st.s.reconnectMaxRetries) :
    (Serve lib script st).outcome.ended = true
    ∧ (Serve lib script st).outcome = exitOutcome st
    ∧ (deferredPanics st = false → (Serve lib script st).outcome = Outcome.returned)
    ∧ (Serve lib script st).trace
        = Event.triggerNoReconnect st.s.reconnectAttempt :: runDeferred st
    ∧ ((Serve lib script st).trace.filter Event.isTriggerNoReconnect)
        = [Event.triggerNoReconnect st.s.reconnectAttempt]
    ∧ (∀ e ∈ (Serve lib script st).trace,
        e.isDial = false ∧ e.isTriggerReconnect = false ∧ e.isSleep = false)
    ∧ (Serve lib script st).st = st := by
  rw [Serve_of_exceeded lib script st h]
  refine ⟨exitOutcome_ended st, rfl, exitOutcome_of_no_nil st, rfl, ?_, ?_, rfl⟩
  · simp only [giveUp, List.filter_cons, Event.isTriggerNoReconnect, if_true]
    congr 1
    apply List.filter_eq_nil_iff.mpr
    intro e he
    simp [(runDeferred_no_trigger st e he).2.2.2]
  · intro e he
    simp only [giveUp, List.mem_cons] at he
    rcases he with rfl | he
    · exact ⟨rfl, rfl, rfl⟩
    · have := runDeferred_no_trigger st e he
      exact ⟨this.1, this.2.1, this.2.2.1⟩

/-- The give-up exit on a client that never connected: 301 failed dials
against the default ceiling of 300, nothing deferred. -/
theorem Serve_gives_up_witness :
    (Serve exampleLib [] exhaustedState).outcome.ended = true
    ∧ (Serve exampleLib [] exhaustedState).outcome = exitOutcome exhaustedState
    ∧ (deferredPanics exhaustedState = false →
        (Serve exampleLib [] exhaustedState).outcome = Outcome.returned)
    ∧ (Serve exampleLib [] exhaustedState).trace
        = Event.triggerNoReconnect 301 :: runDeferred exhaustedState
    ∧ ((Serve exampleLib [] exhaustedState).trace.filter Event.isTriggerNoReconnect)
        = [Event.triggerNoReconnect 301]
    ∧ (∀ e ∈ (Serve exampleLib [] exhaustedState).trace,
        e.isDial = false ∧ e.isTriggerReconnect = false ∧ e.isSleep = false)
    ∧ (Serve exampleLib [] exhaustedState).st = exhaustedState :=
  Serve_gives_up exampleLib [] exhaustedState (by decide)

/-- The give-up exit after a session: the first session of a client made by
New deferred a Close with a nil receiver, so when the ceiling is exceeded
later the give-up callback is triggered and the run then ends in the panic of
that deferred call; with nothing deferred Serve returns. -/
theorem giveUp_outcomes :
    (Serve exampleLib [] exhaustedAfterSession).trace
      = [Event.triggerNoReconnect 301, Event.deferredClose none]
    ∧ (Serve exampleLib [] exhaustedAfterSession).outcome = Outcome.panicked
    ∧ (Serve exampleLib [] exhaustedState).trace = [Event.triggerNoReconnect 301]
    ∧ (Serve exampleLib [] exhaustedState).outcome = Outcome.returned := by
  refine ⟨rfl, by decide, rfl, by decide⟩

/-! ## Trace bookkeeping -/

theorem errorsOf_append (a b : List Event) : errorsOf (a ++ b) = errorsOf a ++ errorsOf b := by
  simp [errorsOf, List.filterMap_append]

theorem reconnectsOf_append (a b : List Event) :
    reconnectsOf (a ++ b) = reconnectsOf a ++ reconnectsOf b := by
  simp [reconnectsOf, List.filterMap_append]

theorem backoff_errors (lib : Lib) (s : SocketClient) : errorsOf (backoff lib s) = [] := by
  unfold backoff
  split
  · cases s.Conn <;> rfl
  · rfl

theorem backoff_no_dial (lib : Lib) (s : SocketClient) :
    (backoff lib s).filter Event.isDial = [] := by
  unfold backoff
  split
  · cases s.Conn <;> rfl
  · rfl

theorem backoff_no_connect (lib : Lib) (s : SocketClient) :
    (backoff lib s).filter Event.isTriggerConnect = [] := by
  unfold backoff
  split
  · cases s.Conn <;> rfl
  · rfl

theorem backoff_no_subscribe (lib : Lib) (s : SocketClient) :
    (backoff lib s).filter Event.isSubscribeWrite = [] := by
  unfold backoff
  split
  · cases s.Conn <;> rfl
  · rfl

theorem runDeferred_errors (st : ServeState) : errorsOf (runDeferred st) = [] := by
  unfold runDeferred errorsOf
  induction st.deferred with
  | nil => rfl
  | cons c l ih => simp [List.filterMap_cons]

theorem runDeferred_filter (st : ServeState) (p : Event → Bool)
    (hp : ∀ c, p (Event.deferredClose c) = false) : (runDeferred st).filter p = [] := by
  apply List.filter_eq_nil_iff.mpr
  intro e he
  unfold runDeferred at he
  obtain ⟨c, _, rfl⟩ := List.mem_map.mp he
  simp [hp c]

/-! ## Serve: the handshake reply -/

/-- The pass of the loop body when dial, write and read succeed and the reply
decodes, but the checks on it fail with `err`. -/
theorem connect_of_rejected (lib : Lib) (a : Attempt) (st : ServeState) (conn : ConnId)
    (message : Bytes) (result : List Record) (err : Error)
    (hd : a.dial = Except.ok conn) (hw : a.authWrite = none)
    (hr : a.authRead = Except.ok message)
    (hdec : decodeReply lib message = Except.ok result)
    (hc : handshakeCheck result = some err) :
    connect lib a st =
      { st := st
        trace := (backoff lib st.s ++ [Event.dial st.s.url st.s.connectTimeout])
          ++ [Event.write (some conn) (controlFrame st.s "cn" ""), Event.read (some conn),
              Event.triggerError err]
        ctl := Ctl.ret } := by
  simp [connect, hd, hw, hr, hdec, hc]

/-- The pass of the loop body when dial, write and read succeed and the reply
passes the checks. -/
theorem connect_of_accepted (lib : Lib) (a : Attempt) (st : ServeState) (conn : ConnId)
    (message : Bytes) (result : List Record)
    (hd : a.dial = Except.ok conn) (hw : a.authWrite = none)
    (hr : a.authRead = Except.ok message)
    (hdec : decodeReply lib message = Except.ok result)
    (hc : handshakeCheck result = none) :
    connect lib a st =
      { startSession st conn a.resubWrite with
        trace := (backoff lib st.s ++ [Event.dial st.s.url st.s.connectTimeout])
          ++ [Event.write (some conn) (controlFrame st.s "cn" ""), Event.read (some conn)]
          ++ (startSession st conn a.resubWrite).trace } := by
  simp [connect, hd, hw, hr, hdec, hc]

theorem startSession_ctl (st : ServeState) (conn : ConnId) (w : Option Error) :
    (startSession st conn w).ctl = Ctl.wait := rfl

/-- Serve on a rejected handshake reply: it executes its `return` with the
client unchanged after one dial, one error callback and no connect callback. -/
theorem Serve_of_rejected (lib : Lib) (a : Attempt) (rest : List Attempt) (st : ServeState)
    (conn : ConnId) (message : Bytes) (result : List Record) (err : Error)
    (hmax : st.s.reconnectAttempt ≤ st.s.reconnectMaxRetries)
    (hd : a.dial = Except.ok conn) (hw : a.authWrite = none)
    (hr : a.authRead = Except.ok message)
    (hdec : decodeReply lib message = Except.ok result)
    (hc : handshakeCheck result = some err) :
    (Serve lib (a :: rest) st).outcome.ended = true
    ∧ (Serve lib (a :: rest) st).outcome = exitOutcome st
    ∧ (deferredPanics st = false → (Serve lib (a :: rest) st).outcome = Outcome.returned)
    ∧ errorsOf (Serve lib (a :: rest) st).trace = [err]
    ∧ (Serve lib (a :: rest) st).trace.filter Event.isTriggerConnect = []
    ∧ ((Serve lib (a :: rest) st).trace.filter Event.isDial).length = 1
    ∧ (Serve lib (a :: rest) st).st = st := by
  have hnot : ¬ st.s.reconnectAttempt > st.s.reconnectMaxRetries := not_lt.mpr hmax
  have hk := connect_of_rejected lib a st conn message result err hd hw hr hdec hc
  have hS : Serve lib (a :: rest) st =
      { st := st
        trace := ((backoff lib st.s ++ [Event.dial st.s.url st.s.connectTimeout])
          ++ [Event.write (some conn) (controlFrame st.s "cn" ""), Event.read (some conn),
              Event.triggerError err]) ++ runDeferred st
        outcome := exitOutcome st } := by
    simp only [Serve, hnot, if_false, hk]
  rw [hS]
  refine ⟨exitOutcome_ended st, rfl, exitOutcome_of_no_nil st, ?_, ?_, ?_, rfl⟩
  · simp only [errorsOf_append, backoff_errors, runDeferred_errors]
    rfl
  · simp only [List.filter_append, backoff_no_connect,
      runDeferred_filter st Event.isTriggerConnect (fun _ => rfl)]
    rfl
  · simp only [List.filter_append, backoff_no_dial,
      runDeferred_filter st Event.isDial (fun _ => rfl)]
    rfl

theorem handshakeCheck_of_no_ak (result : List Record) (h : firstAk result = none) :
    handshakeCheck result = some Error.invalidMessage := by
  cases result with
  | nil => rfl
  | cons r t =>
    simp only [firstAk] at h
    simp [handshakeCheck, h]

theorem handshakeCheck_of_nk (result : List Record) (v : Value)
    (h : firstAk result = some v) (hv : v.eqString "nk" = true) :
    handshakeCheck result = some Error.invalidFeedToken := by
  cases result with
  | nil => simp [firstAk] at h
  | cons r t =>
    simp only [firstAk] at h
    simp [handshakeCheck, h, hv]

theorem handshakeCheck_of_other (result : List Record) (v : Value)
    (h : firstAk result = some v) (hv : v.eqString "nk" = false) :
    handshakeCheck result = none := by
  cases result with
  | nil => simp [firstAk] at h
  | cons r t =>
    simp only [firstAk] at h
    simp [handshakeCheck, h, hv]

theorem startSession_connect_once (st : ServeState) (conn : ConnId) (w : Option Error) :
    (startSession st conn w).trace.filter Event.isTriggerConnect = [Event.triggerConnect] := by
  cases hA : st.s.autoReconnect <;> cases w <;> by_cases h : st.s.reconnectAttempt > 0 <;>
    simp [startSession, Resubscribe, Subscribe, hA, h, List.filter_cons,
      Event.isTriggerConnect]

theorem startSession_no_dial (st : ServeState) (conn : ConnId) (w : Option Error) :
    (startSession st conn w).trace.filter Event.isDial = [] := by
  cases hA : st.s.autoReconnect <;> cases w <;> by_cases h : st.s.reconnectAttempt > 0 <;>
    simp [startSession, Resubscribe, Subscribe, hA, h, List.filter_cons, Event.isDial]

/-- Serve on an accepted handshake reply: the session is started and Serve
waits for it, the connect callback having been triggered once. -/
theorem Serve_of_accepted (lib : Lib) (a : Attempt) (rest : List Attempt) (st : ServeState)
    (conn : ConnId) (message : Bytes) (result : List Record)
    (hmax : st.s.reconnectAttempt ≤ st.s.reconnectMaxRetries)
    (hd : a.dial = Except.ok conn) (hw : a.authWrite = none)
    (hr : a.authRead = Except.ok message)
    (hdec : decodeReply lib message = Except.ok result)
    (hc : handshakeCheck result = none) :
    Serve lib (a :: rest) st =
      { st := (startSession st conn a.resubWrite).st
        trace := (backoff lib st.s ++ [Event.dial st.s.url st.s.connectTimeout])
          ++ [Event.write (some conn) (controlFrame st.s "cn" ""), Event.read (some conn)]
          ++ (startSession st conn a.resubWrite).trace
        outcome := Outcome.waiting } := by
  have hnot : ¬ st.s.reconnectAttempt > st.s.reconnectMaxRetries := not_lt.mpr hmax
  have hk := connect_of_accepted lib a st conn message result hd hw hr hdec hc
  simp only [Serve, hnot, if_false, hk, startSession_ctl]

/-- C5: in an iteration of Serve that reaches the dial, where the dial, the
`cn` write and the read of the reply succeed and the reply decodes to
`result`: (1) if `result` is empty or its first record has no "ak" field,
Serve triggers the error callback exactly once, with the invalid-message
error; (2) if the "ak" field of the first record is the string "nk", it
triggers the error callback exactly once, with the invalid-feed-token-or-
client-code error; in both cases it does not trigger the connect callback,
leaves the client (attempt counter included) unchanged, and its run ends at
the `return` having dialled once, whatever the attempt counter and
autoReconnect are: Serve has returned when no deferred Close has a nil
receiver, and when one has, that call panics and the run ends in the panic;
(3) otherwise the handshake succeeds: the connect callback is triggered once
and Serve goes on to wait for the session. -/
theorem Serve_handshake_reply (lib : Lib) (a : Attempt) (rest : List Attempt)
    (st : ServeState) (conn : ConnId) (message : Bytes) (result : List Record)
    (hmax : st.s.reconnectAttempt ≤ st.s.reconnectMaxRetries)
    (hd : a.dial = Except.ok conn) (hw : a.authWrite = none)
    (hr : a.authRead = Except.ok message)
    (hdec : decodeReply lib message = Except.ok result) :
    ((result = [] ∨ firstAk result = none) →
      (Serve lib (a :: rest) st).outcome.ended = true
      ∧ (Serve lib (a :: rest) st).outcome = exitOutcome st
      ∧ (deferredPanics st = false → (Serve lib (a :: rest) st).outcome = Outcome.returned)
      ∧ errorsOf (Serve lib (a :: rest) st).trace = [Error.invalidMessage]
      ∧ (Serve lib (a :: rest) st).trace.filter Event.isTriggerConnect = []
      ∧ ((Serve lib (a :: rest) st).trace.filter Event.isDial).length = 1
      ∧ (Serve lib (a :: rest) st).st = st)
    ∧ ((∃ v, firstAk result = some v ∧ v.eqString "nk" = true) →
      (Serve lib (a :: rest) st).outcome.ended = true
      ∧ (Serve lib (a :: rest) st).outcome = exitOutcome st
      ∧ (deferredPanics st = false → (Serve lib (a :: rest) st).outcome = Outcome.returned)
      ∧ errorsOf (Serve lib (a :: rest) st).trace = [Error.invalidFeedToken]
      ∧ (Serve lib (a :: rest) st).trace.filter Event.isTriggerConnect = []
      ∧ ((Serve lib (a :: rest) st).trace.filter Event.isDial).length = 1
      ∧ (Serve lib (a :: rest) st).st = st)
    ∧ ((∃ v, firstAk result = some v ∧ v.eqString "nk" = false) →
      (Serve lib (a :: rest) st).outcome = Outcome.waiting
      ∧ (Serve lib (a :: rest) st).trace.filter Event.isTriggerConnect
          = [Event.triggerConnect]
      ∧ ((Serve lib (a :: rest) st).trace.filter Event.isDial).length = 1
      ∧ (Serve lib (a :: rest) st).st.s.reconnectAttempt = 0) := by
  refine ⟨?_, ?_, ?_⟩
  · intro h
    have hno : firstAk result = none := by
      rcases h with h | h
      · rw [h]; rfl
      · exact h
    exact Serve_of_rejected lib a rest st conn message result _ hmax hd hw hr hdec
      (handshakeCheck_of_no_ak result hno)
  · rintro ⟨v, h, hv⟩
    exact Serve_of_rejected lib a rest st conn message result _ hmax hd hw hr hdec
      (handshakeCheck_of_nk result v h hv)
  · rintro ⟨v, h, hv⟩
    rw [Serve_of_accepted lib a rest st conn message result hmax hd hw hr hdec
      (handshakeCheck_of_other result v h hv)]
    refine ⟨rfl, ?_, ?_, rfl⟩
    · simp only [List.filter_append, backoff_no_connect, startSession_connect_once]
      rfl
    · simp only [List.filter_append, backoff_no_dial, startSession_no_dial]
      rfl

/-- The handshake verdicts on the reply whose first record has "ak" = "nk",
read by a client that has not connected before, after two failed dials. -/
theorem Serve_handshake_reply_witness :
    ((([[("ak", Value.str "nk")]] : List Record) = []
        ∨ firstAk [[("ak", Value.str "nk")]] = none) →
      (Serve exampleLib [replyAttempt 1] streakState).outcome.ended = true
      ∧ (Serve exampleLib [replyAttempt 1] streakState).outcome = exitOutcome streakState
      ∧ (deferredPanics streakState = false →
          (Serve exampleLib [replyAttempt 1] streakState).outcome = Outcome.returned)
      ∧ errorsOf (Serve exampleLib [replyAttempt 1] streakState).trace
          = [Error.invalidMessage]
      ∧ (Serve exampleLib [replyAttempt 1] streakState).trace.filter Event.isTriggerConnect
          = []
      ∧ ((Serve exampleLib [replyAttempt 1] streakState).trace.filter Event.isDial).length
          = 1
      ∧ (Serve exampleLib [replyAttempt 1] streakState).st = streakState)
    ∧ ((∃ v, firstAk [[("ak", Value.str "nk")]] = some v ∧ v.eqString "nk" = true) →
      (Serve exampleLib [replyAttempt 1] streakState).outcome.ended = true
      ∧ (Serve exampleLib [replyAttempt 1] streakState).outcome = exitOutcome streakState
      ∧ (deferredPanics streakState = false →
          (Serve exampleLib [replyAttempt 1] streakState).outcome = Outcome.returned)
      ∧ errorsOf (Serve exampleLib [replyAttempt 1] streakState).trace
          = [Error.invalidFeedToken]
      ∧ (Serve exampleLib [replyAttempt 1] streakState).trace.filter Event.isTriggerConnect
          = []
      ∧ ((Serve exampleLib [replyAttempt 1] streakState).trace.filter Event.isDial).length
          = 1
      ∧ (Serve exampleLib [replyAttempt 1] streakState).st = streakState)
    ∧ ((∃ v, firstAk [[("ak", Value.str "nk")]] = some v ∧ v.eqString "nk" = false) →
      (Serve exampleLib [replyAttempt 1] streakState).outcome = Outcome.waiting
      ∧ (Serve exampleLib [replyAttempt 1] streakState).trace.filter Event.isTriggerConnect
          = [Event.triggerConnect]
      ∧ ((Serve exampleLib [replyAttempt 1] streakState).trace.filter Event.isDial).length
          = 1
      ∧ (Serve exampleLib [replyAttempt 1] streakState).st.s.reconnectAttempt = 0) :=
  Serve_handshake_reply exampleLib (replyAttempt 1) [] streakState 7 [1]
    [[("ak", Value.str "nk")]] (by decide) rfl rfl rfl rfl

/-- The rejected reply "ak" = "nk" at the two kinds of state: on a client that
has not connected before, Serve triggers the error callback and returns; on a
reconnect after a session, whose `defer` holds the nil receiver, it triggers
the error callback and makes the deferred call, and the run ends in that
call's panic. -/
theorem rejected_reply_outcomes :
    (Serve exampleLib [replyAttempt 1] streakState).outcome = Outcome.returned
    ∧ (Serve exampleLib [replyAttempt 1] streakState).trace
        = [Event.triggerReconnect 2 (4 * Second), Event.sleep (4 * Second),
           Event.dial tickerURL defaultConnectTimeout,
           Event.write (some 7) (controlFrame streakState.s "cn" ""),
           Event.read (some 7), Event.triggerError Error.invalidFeedToken]
    ∧ (Serve exampleLib [replyAttempt 1] retryingState).outcome = Outcome.panicked
    ∧ (Serve exampleLib [replyAttempt 1] retryingState).trace
        = [Event.triggerReconnect 2 (4 * Second), Event.sleep (4 * Second),
           Event.connClose (some 3),
           Event.dial tickerURL defaultConnectTimeout,
           Event.write (some 7) (controlFrame retryingState.s "cn" ""),
           Event.read (some 7), Event.triggerError Error.invalidFeedToken,
           Event.deferredClose none] := by
  refine ⟨by decide, rfl, by decide, rfl⟩

/-! ## readMessage -/

/-- One pass of readMessage on a frame that inflates and parses. -/
theorem readMessageBody_of_decoded (lib : Lib) (sh : Shared) (msg val : Bytes)
    (finalMessage : List Record)
    (hz : readSegment lib (lib.base64Decode msg) = Except.ok val)
    (hj : lib.jsonUnmarshal val = Except.ok finalMessage) :
    readMessageBody lib (Except.ok msg) sh =
      { sh := sh, trace := Event.read sh.s.Conn :: deliver finalMessage, returned := false } := by
  simp [readMessageBody, hz, hj]

/-- C6, as the code has it: for a frame that inflates and parses to
`finalMessage`, one pass of the read loop leaves the shared state unchanged,
goes on reading, and after the read does exactly one of: (1) `finalMessage`
empty: no callback; (2) the first record has an "ak" field equal to "nk":
the error callback once and no message callback; (3) the first record has an
"ak" field with any other value: no callback at all; (4) the first record has
no "ak" field: the message callback once, with `finalMessage` unchanged. -/
theorem readMessage_decoded_frame (lib : Lib) (sh : Shared) (msg val : Bytes)
    (finalMessage : List Record)
    (hz : readSegment lib (lib.base64Decode msg) = Except.ok val)
    (hj : lib.jsonUnmarshal val = Except.ok finalMessage) :
    (readMessageBody lib (Except.ok msg) sh).returned = false
    ∧ (readMessageBody lib (Except.ok msg) sh).sh = sh
    ∧ (finalMessage = [] →
        (readMessageBody lib (Except.ok msg) sh).trace = [Event.read sh.s.Conn])
    ∧ (∀ v, finalMessage ≠ [] → firstAk finalMessage = some v → v.eqString "nk" = true →
        (readMessageBody lib (Except.ok msg) sh).trace
          = [Event.read sh.s.Conn, Event.triggerError Error.invalidFeedToken])
    ∧ (∀ v, finalMessage ≠ [] → firstAk finalMessage = some v → v.eqString "nk" = false →
        (readMessageBody lib (Except.ok msg) sh).trace = [Event.read sh.s.Conn])
    ∧ (finalMessage ≠ [] → firstAk finalMessage = none →
        (readMessageBody lib (Except.ok msg) sh).trace
          = [Event.read sh.s.Conn, Event.triggerMessage finalMessage]) := by
  rw [readMessageBody_of_decoded lib sh msg val finalMessage hz hj]
  refine ⟨rfl, rfl, ?_, ?_, ?_, ?_⟩
  · intro h
    subst h
    rfl
  · intro v hne hak hv
    cases finalMessage with
    | nil => exact absurd rfl hne
    | cons r t =>
      simp only [firstAk] at hak
      simp [deliver, hak, hv]
  · intro v hne hak hv
    cases finalMessage with
    | nil => exact absurd rfl hne
    | cons r t =>
      simp only [firstAk] at hak
      simp [deliver, hak, hv]
  · intro hne hak
    cases finalMessage with
    | nil => exact absurd rfl hne
    | cons r t =>
      simp only [firstAk] at hak
      simp [deliver, hak]

/-- The read loop on a tick frame (no "ak" field) in a live session. -/
theorem readMessage_decoded_frame_witness :
    (readMessageBody exampleLib (Except.ok [3]) liveShared).returned = false
    ∧ (readMessageBody exampleLib (Except.ok [3]) liveShared).sh = liveShared
    ∧ (([[("tk", Value.str "3045"), ("ltp", Value.num 100)]] : List Record) = [] →
        (readMessageBody exampleLib (Except.ok [3]) liveShared).trace
          = [Event.read liveShared.s.Conn])
    ∧ (∀ v, ([[("tk", Value.str "3045"), ("ltp", Value.num 100)]] : List Record) ≠ [] →
        firstAk [[("tk", Value.str "3045"), ("ltp", Value.num 100)]] = some v →
        v.eqString "nk" = true →
        (readMessageBody exampleLib (Except.ok [3]) liveShared).trace
          = [Event.read liveShared.s.Conn, Event.triggerError Error.invalidFeedToken])
    ∧ (∀ v, ([[("tk", Value.str "3045"), ("ltp", Value.num 100)]] : List Record) ≠ [] →
        firstAk [[("tk", Value.str "3045"), ("ltp", Value.num 100)]] = some v →
        v.eqString "nk" = false →
        (readMessageBody exampleLib (Except.ok [3]) liveShared).trace
          = [Event.read liveShared.s.Conn])
    ∧ (([[("tk", Value.str "3045"), ("ltp", Value.num 100)]] : List Record) ≠ [] →
        firstAk [[("tk", Value.str "3045"), ("ltp", Value.num 100)]] = none →
        (readMessageBody exampleLib (Except.ok [3]) liveShared).trace
          = [Event.read liveShared.s.Conn,
             Event.triggerMessage [[("tk", Value.str "3045"), ("ltp", Value.num 100)]]]) :=
  readMessage_decoded_frame exampleLib liveShared [3] [3]
    [[("tk", Value.str "3045"), ("ltp", Value.num 100)]] rfl rfl

/-- C6 fails as stated: the payload `[2]` inflates and parses to the one record with "ak" = "ok", an "ak" field present with a value other
than "nk"; the pass of the read loop triggers no message callback (and no
error callback) for it: its only event is the read. -/
theorem readMessage_skips_other_ak :
    readSegment exampleLib (exampleLib.base64Decode [2]) = Except.ok [2]
    ∧ exampleLib.jsonUnmarshal [2] = Except.ok [[("ak", Value.str "ok")]]
    ∧ firstAk [[("ak", Value.str "ok")]] = some (Value.str "ok")
    ∧ (Value.str "ok").eqString "nk" = false
    ∧ (readMessageBody exampleLib (Except.ok [2]) liveShared).trace
        = [Event.read (some 7)]
    ∧ messagesOf (readMessageBody exampleLib (Except.ok [2]) liveShared).trace = []
    ∧ messagesOf (readMessageBody exampleLib (Except.ok [2]) liveShared).trace
        ≠ [[[("ak", Value.str "ok")]]] := by
  refine ⟨rfl, rfl, rfl, by decide, rfl, rfl, ?_⟩
  intro h
  have h2 : messagesOf (readMessageBody exampleLib (Except.ok [2]) liveShared).trace = [] := rfl
  rw [h2] at h
  exact List.noConfusion h

/-! ## checkConnection -/

/-- The body of checkConnection never returns: after a failed write it has
triggered the error callback, closed the connection, incremented the attempt
counter and called `wg.Done()`, and it loops. -/
theorem checkConnectionBody_loops (w : Option Error) (sh : Shared) :
    (checkConnectionBody w sh).returned = false := by
  cases w <;> rfl

/-- C8 (the code departs from the claim): on a session with the WaitGroup at 2,
checkConnection facing two failed heartbeat writes does not stop at the first:
it sleeps and writes a second time, triggers the error callback twice,
increments reconnectAttempt to 2 and calls `wg.Done()` twice, bringing the
counter to 0 on its own; and it has still not returned. -/
theorem checkConnection_keeps_running_after_failure :
    (checkConnection [some (Error.ext 1), some (Error.ext 2)] liveShared).returned = false
    ∧ (checkConnection [some (Error.ext 1), some (Error.ext 2)] liveShared).sh.s.reconnectAttempt
        = liveShared.s.reconnectAttempt + 2
    ∧ (checkConnection [some (Error.ext 1), some (Error.ext 2)] liveShared).sh.wg = 0
    ∧ (checkConnection [some (Error.ext 1), some (Error.ext 2)] liveShared).trace
        = [Event.sleep connectionCheckInterval,
           Event.write (some 7) (controlFrame liveShared.s "hb" ""),
           Event.triggerError (Error.ext 1), Event.connClose (some 7),
           Event.setAttempt 1, Event.wgDone,
           Event.sleep connectionCheckInterval,
           Event.write (some 7) (controlFrame liveShared.s "hb" ""),
           Event.triggerError (Error.ext 2), Event.connClose (some 7),
           Event.setAttempt 2, Event.wgDone] := by
  refine ⟨rfl, by decide, by decide, rfl⟩

/-- A third failed heartbeat write, on a WaitGroup that started at 2: the
counter is already 0, so this `wg.Done()` makes it negative and panics. -/
theorem third_heartbeat_failure_panics :
    (checkConnection [some (Error.ext 1), some (Error.ext 2)] liveShared).panicked = false
    ∧ (checkConnection [some (Error.ext 1), some (Error.ext 2), some (Error.ext 3)]
        liveShared).panicked = true
    ∧ (checkConnection [some (Error.ext 1), some (Error.ext 2), some (Error.ext 3)]
        liveShared).sh.wg = -1 := by
  refine ⟨rfl, rfl, by decide⟩

/-! ## readMessage: frames that do not decode -/

/-- A session whose only goroutine is readMessage and whose WaitGroup is not
released stays unjoined whatever is scheduled next. -/
theorem Session.run_of_idle (lib : Lib) (sched : List TaskStep) (x : Session)
    (hr : x.reading = false) (hc : x.checking = false) :
    Session.run lib sched x = (x, []) := by
  induction sched with
  | nil => rfl
  | cons t rest ih =>
    have hstep : Session.step lib x t = (x, []) := by
      cases t <;> simp [Session.step, hr, hc]
    simp [Session.run, hstep, ih]

/-- C9 (the code departs from the claim): a frame that fails to inflate (the
empty payload) and one that fails to parse (payload `[9]`) each make
readMessage trigger the error callback once and return without `wg.Done()`:
the counter stays at 1, where a read error brings it to 0.  With auto-reconnect
off nothing else can release the WaitGroup, so the join never completes,
whatever is scheduled afterwards. -/
theorem readMessage_decode_error_keeps_join :
    (readMessageBody exampleLib (Except.ok []) readOnlySession.sh).returned = true
    ∧ (readMessageBody exampleLib (Except.ok []) readOnlySession.sh).trace
        = [Event.read (some 7), Event.triggerError (Error.ext 10)]
    ∧ (readMessageBody exampleLib (Except.ok []) readOnlySession.sh).sh.wg = 1
    ∧ (readMessageBody exampleLib (Except.ok [9]) readOnlySession.sh).returned = true
    ∧ (readMessageBody exampleLib (Except.ok [9]) readOnlySession.sh).trace
        = [Event.read (some 7), Event.triggerError (Error.ext 11)]
    ∧ (readMessageBody exampleLib (Except.ok [9]) readOnlySession.sh).sh.wg = 1
    ∧ (readMessageBody exampleLib (Except.error (Error.ext 5)) readOnlySession.sh).trace
        = [Event.read (some 7), Event.triggerError (Error.readingData (Error.ext 5)),
           Event.wgDone]
    ∧ (readMessageBody exampleLib (Except.error (Error.ext 5)) readOnlySession.sh).sh.wg = 0
    ∧ (readMessage exampleLib [Except.ok [], Except.ok [3]] readOnlySession.sh).returned = true
    ∧ (readMessage exampleLib [Except.ok [], Except.ok [3]] readOnlySession.sh).trace
        = [Event.read (some 7), Event.triggerError (Error.ext 10)]
    ∧ (∀ sched : List TaskStep,
        (Session.run exampleLib (TaskStep.read (Except.ok []) :: sched)
          readOnlySession).1.joined = false)
    ∧ (∀ sched : List TaskStep,
        (Session.run exampleLib (TaskStep.read (Except.ok [9]) :: sched)
          readOnlySession).1.joined = false) := by
  refine ⟨rfl, rfl, by decide, rfl, rfl, by decide, rfl, by decide, rfl, rfl, ?_, ?_⟩
  · intro sched
    have hstep : Session.step exampleLib readOnlySession (TaskStep.read (Except.ok []))
        = ({ readOnlySession with reading := false },
            [Event.read (some 7), Event.triggerError (Error.ext 10)]) := rfl
    simp only [Session.run, hstep]
    rw [Session.run_of_idle exampleLib sched _ rfl rfl]
    decide
  · intro sched
    have hstep : Session.step exampleLib readOnlySession (TaskStep.read (Except.ok [9]))
        = ({ readOnlySession with reading := false },
            [Event.read (some 7), Event.triggerError (Error.ext 11)]) := rfl
    simp only [Session.run, hstep]
    rw [Session.run_of_idle exampleLib sched _ rfl rfl]
    decide

/-! ## Serve: order of events within a generation -/

theorem precedes_append_left (p q : Event → Bool) (l1 l2 : List Event)
    (h : ∀ e ∈ l1, p e = false ∧ q e = false) :
    precedes p q (l1 ++ l2) = precedes p q l2 := by
  induction l1 with
  | nil => rfl
  | cons e l ih =>
    have he := h e (List.mem_cons_self e l)
    have hl : ∀ e ∈ l, p e = false ∧ q e = false :=
      fun e' he' => h e' (List.mem_cons_of_mem e he')
    simp [precedes, he.1, he.2, ih hl]

/-- The events of the backoff phase are a reconnect callback, a sleep and
possibly a close. -/
theorem backoff_events (lib : Lib) (s : SocketClient) :
    ∀ e ∈ backoff lib s,
      (∃ a d, e = Event.triggerReconnect a d) ∨ (∃ d, e = Event.sleep d)
      ∨ (∃ c, e = Event.connClose c) := by
  intro e he
  unfold backoff at he
  split at he
  · cases hC : s.Conn <;> simp [hC] at he
    · rcases he with rfl | rfl
      · exact Or.inl ⟨_, _, rfl⟩
      · exact Or.inr (Or.inl ⟨_, rfl⟩)
    · rcases he with rfl | rfl | rfl
      · exact Or.inl ⟨_, _, rfl⟩
      · exact Or.inr (Or.inl ⟨_, rfl⟩)
      · exact Or.inr (Or.inr ⟨_, rfl⟩)
  · simp at he

theorem precedes_backoff (lib : Lib) (s : SocketClient) (p q : Event → Bool) (l : List Event)
    (hp : ∀ a d, p (Event.triggerReconnect a d) = false ∧ q (Event.triggerReconnect a d) = false)
    (hs : ∀ d, p (Event.sleep d) = false ∧ q (Event.sleep d) = false)
    (hc : ∀ c, p (Event.connClose c) = false ∧ q (Event.connClose c) = false) :
    precedes p q (backoff lib s ++ l) = precedes p q l := by
  apply precedes_append_left
  intro e he
  rcases backoff_events lib s e he with ⟨a, d, rfl⟩ | ⟨d, rfl⟩ | ⟨c, rfl⟩
  · exact hp a d
  · exact hs d
  · exact hc c

/-- A pass of the loop body ends in `wg.Wait()` only through an accepted
handshake reply. -/
theorem connect_wait_inv (lib : Lib) (a : Attempt) (st : ServeState)
    (h : (connect lib a st).ctl = Ctl.wait) :
    ∃ conn message result,
      a.dial = Except.ok conn ∧ a.authWrite = none ∧ a.authRead = Except.ok message
      ∧ decodeReply lib message = Except.ok result ∧ handshakeCheck result = none := by
  rcases hd : a.dial with err | conn
  · cases hA : st.s.autoReconnect <;> simp [connect, hd, hA] at h
  · rcases hw : a.authWrite with _ | err
    · rcases hr : a.authRead with err | message
      · simp [connect, hd, hw, hr] at h
      · rcases hdec : decodeReply lib message with err | result
        · simp [connect, hd, hw, hr, hdec] at h
        · rcases hc : handshakeCheck result with _ | err
          · exact ⟨conn, message, result, rfl, rfl, rfl, hdec, hc⟩
          · simp [connect, hd, hw, hr, hdec, hc] at h
    · simp [connect, hd, hw] at h

/-- C10, as the code has it: in every generation of Serve that reaches
`wg.Wait()`, the handshake reply was read and accepted before any goroutine is
started; the connect callback is triggered before the resubscription write,
which is made exactly when the attempt counter was positive; and the attempt
counter is reset to 0 before any goroutine is started. -/
theorem connect_session_order (lib : Lib) (a : Attempt) (st : ServeState)
    (h : (connect lib a st).ctl = Ctl.wait) :
    (∃ conn message result,
      a.dial = Except.ok conn ∧ a.authWrite = none ∧ a.authRead = Except.ok message
      ∧ decodeReply lib message = Except.ok result ∧ handshakeCheck result = none)
    ∧ (connect lib a st).trace.any Event.isGo = true
    ∧ precedes Event.isRead Event.isGo (connect lib a st).trace = true
    ∧ (connect lib a st).trace.any Event.isTriggerConnect = true
    ∧ precedes Event.isTriggerConnect Event.isSubscribeWrite (connect lib a st).trace = true
    ∧ ((connect lib a st).trace.filter Event.isSubscribeWrite).length
        = (if st.s.reconnectAttempt > 0 then 1 else 0)
    ∧ precedes Event.isReset Event.isGo (connect lib a st).trace = true
    ∧ (connect lib a st).st.s.reconnectAttempt = 0 := by
  obtain ⟨conn, message, result, hd, hw, hr, hdec, hc⟩ := connect_wait_inv lib a st h
  refine ⟨⟨conn, message, result, hd, hw, hr, hdec, hc⟩, ?_⟩
  rw [connect_of_accepted lib a st conn message result hd hw hr hdec hc]
  simp only [List.append_assoc]
  refine ⟨?_, ?_, ?_, ?_, ?_, ?_, rfl⟩
  · cases hA : st.s.autoReconnect <;> cases a.resubWrite <;>
      by_cases h0 : st.s.reconnectAttempt > 0 <;>
      simp [startSession, Resubscribe, Subscribe, hA, h0, Event.isGo]
  · rw [precedes_backoff lib st.s _ _ _ (fun _ _ => ⟨rfl, rfl⟩) (fun _ => ⟨rfl, rfl⟩)
      (fun _ => ⟨rfl, rfl⟩)]
    simp [precedes, Event.isRead, Event.isGo]
  · cases hA : st.s.autoReconnect <;> cases a.resubWrite <;>
      by_cases h0 : st.s.reconnectAttempt > 0 <;>
      simp [startSession, Resubscribe, Subscribe, hA, h0, Event.isTriggerConnect]
  · rw [precedes_backoff lib st.s _ _ _ (fun _ _ => ⟨rfl, rfl⟩) (fun _ => ⟨rfl, rfl⟩)
      (fun _ => ⟨rfl, rfl⟩)]
    simp [precedes, startSession, Event.isTriggerConnect, Event.isSubscribeWrite,
      controlFrame]
  · rw [List.filter_append, backoff_no_subscribe]
    cases hA : st.s.autoReconnect <;> cases a.resubWrite <;>
      by_cases h0 : st.s.reconnectAttempt > 0 <;>
      simp [startSession, Resubscribe, Subscribe, hA, h0, List.filter_cons,
        Event.isSubscribeWrite, controlFrame]
  · rw [precedes_backoff lib st.s _ _ _ (fun _ _ => ⟨rfl, rfl⟩) (fun _ => ⟨rfl, rfl⟩)
      (fun _ => ⟨rfl, rfl⟩)]
    cases a.resubWrite <;> by_cases h0 : st.s.reconnectAttempt > 0 <;>
      simp [precedes, startSession, Resubscribe, Subscribe, h0, Event.isReset, Event.isGo]

/-- The order of events in the generation that ends a streak of two failed dials. -/
theorem connect_session_order_witness :
    (∃ conn message result,
      (replyAttempt 2).dial = Except.ok conn ∧ (replyAttempt 2).authWrite = none
      ∧ (replyAttempt 2).authRead = Except.ok message
      ∧ decodeReply exampleLib message = Except.ok result ∧ handshakeCheck result = none)
    ∧ (connect exampleLib (replyAttempt 2) retryingState).trace.any Event.isGo = true
    ∧ precedes Event.isRead Event.isGo
        (connect exampleLib (replyAttempt 2) retryingState).trace = true
    ∧ (connect exampleLib (replyAttempt 2) retryingState).trace.any Event.isTriggerConnect
        = true
    ∧ precedes Event.isTriggerConnect Event.isSubscribeWrite
        (connect exampleLib (replyAttempt 2) retryingState).trace = true
    ∧ ((connect exampleLib (replyAttempt 2) retryingState).trace.filter
          Event.isSubscribeWrite).length
        = (if retryingState.s.reconnectAttempt > 0 then 1 else 0)
    ∧ precedes Event.isReset Event.isGo
        (connect exampleLib (replyAttempt 2) retryingState).trace = true
    ∧ (connect exampleLib (replyAttempt 2) retryingState).st.s.reconnectAttempt = 0 :=
  connect_session_order exampleLib (replyAttempt 2) retryingState rfl

/-- C10 fails as stated: in the generation that ends a streak of two failed
dials, the resubscription write does occur and the connect callback is
triggered before it, not after: the trace of the generation is, in order,
reconnect callback, sleep, close, dial, `cn` write, read, assignment of Conn,
connect callback, `mw` write, counter reset, close handler, and the start of
the two goroutines. -/
theorem resubscribe_after_connect :
    (connect exampleLib (replyAttempt 2) retryingState).trace
      = [Event.triggerReconnect 2 (4 * Second), Event.sleep (4 * Second),
         Event.connClose (some 3),
         Event.dial tickerURL defaultConnectTimeout,
         Event.write (some 7) (controlFrame retryingState.s "cn" ""),
         Event.read (some 7),
         Event.setConn 7, Event.triggerConnect,
         Event.write (some 7) (controlFrame retryingState.s "mw" "nse_cm|3045"),
         Event.setAttempt 0, Event.setCloseHandler,
         Event.wgAdd, Event.go Task.readMessage,
         Event.wgAdd, Event.go Task.checkConnection, Event.wgWait]
    ∧ (connect exampleLib (replyAttempt 2) retryingState).trace.any Event.isSubscribeWrite
        = true
    ∧ precedes Event.isSubscribeWrite Event.isTriggerConnect
        (connect exampleLib (replyAttempt 2) retryingState).trace = false := by
  refine ⟨?_, ?_, ?_⟩
  · rfl
  · decide
  · decide

/-! ## Serve: a streak of failed dials -/

theorem reconnectsOf_backoff (lib : Lib) (s : SocketClient) :
    reconnectsOf (backoff lib s)
      = if s.reconnectAttempt > 0 then [(s.reconnectAttempt, nextDelay lib s)] else [] := by
  unfold backoff
  split
  · cases s.Conn <;> rfl
  · rfl

/-- One iteration of Serve whose dial fails, auto-reconnect being on. -/
theorem Serve_dial_failed (lib : Lib) (a : Attempt) (rest : List Attempt) (st : ServeState)
    (err : Error)
    (hmax : st.s.reconnectAttempt ≤ st.s.reconnectMaxRetries)
    (hauto : st.s.autoReconnect = true) (hd : a.dial = Except.error err) :
    Serve lib (a :: rest) st =
      { Serve lib rest (st.advance 1) with
        trace := ((backoff lib st.s ++ [Event.dial st.s.url st.s.connectTimeout])
            ++ [Event.triggerError err, Event.setAttempt (st.s.reconnectAttempt + 1)])
          ++ (Serve lib rest (st.advance 1)).trace } := by
  have hnot : ¬ st.s.reconnectAttempt > st.s.reconnectMaxRetries := not_lt.mpr hmax
  have hk : connect lib a st =
      { st := st.advance 1
        trace := (backoff lib st.s ++ [Event.dial st.s.url st.s.connectTimeout])
            ++ [Event.triggerError err, Event.setAttempt (st.s.reconnectAttempt + 1)]
        ctl := Ctl.next } := by
    simp [connect, hd, hauto, ServeState.advance]
  simp only [Serve, hnot, if_false, hk]

theorem ServeState.advance_advance (st : ServeState) (m n : Nat) :
    (st.advance m).advance n = st.advance (m + n) := by
  simp only [ServeState.advance, Nat.cast_add, add_assoc]

theorem delayAt_advance (lib : Lib) (st : ServeState) (n : Nat) (x : Int) :
    delayAt lib (st.advance n).s x = delayAt lib st.s x := rfl

theorem ServeState.advance_zero (st : ServeState) : st.advance 0 = st := by
  simp [ServeState.advance]

theorem range_succ_map_shift (n : Nat) (f : Int → Int × Duration) (j : Int) :
    (List.range (n + 1)).map (fun i : Nat => f (j + i))
      = f j :: (List.range n).map (fun i : Nat => f (j + 1 + i)) := by
  rw [List.range_succ_eq_map, List.map_cons, List.map_map]
  congr 1
  · simp
  · apply List.map_congr_left
    intro i _
    simp only [Function.comp, Nat.succ_eq_add_one, Nat.cast_add, Nat.cast_one]
    congr 1
    ring

/-- A streak of failed dials inside a failure streak (attempt counter already
positive), auto-reconnect on and the ceiling not reached: each dial adds one
error callback and one reconnect callback with the attempt counter and the
delay of that attempt, no connect callback and no subscription write, and
Serve goes on with the counter raised by the number of dials. -/
theorem Serve_streak (lib : Lib) (tail : List Attempt) :
    ∀ (fails : List Attempt) (st : ServeState),
      st.s.autoReconnect = true → 1 ≤ st.s.reconnectAttempt →
      st.s.reconnectAttempt + fails.length ≤ st.s.reconnectMaxRetries →
      (∀ a ∈ fails, ∃ err, a.dial = Except.error err) →
      (Serve lib (fails ++ tail) st).outcome
          = (Serve lib tail (st.advance fails.length)).outcome
      ∧ (Serve lib (fails ++ tail) st).st = (Serve lib tail (st.advance fails.length)).st
      ∧ (errorsOf (Serve lib (fails ++ tail) st).trace).length
          = fails.length + (errorsOf (Serve lib tail (st.advance fails.length)).trace).length
      ∧ reconnectsOf (Serve lib (fails ++ tail) st).trace
          = (List.range fails.length).map
              (fun i : Nat => (st.s.reconnectAttempt + i, delayAt lib st.s (st.s.reconnectAttempt + i)))
            ++ reconnectsOf (Serve lib tail (st.advance fails.length)).trace
      ∧ (Serve lib (fails ++ tail) st).trace.filter Event.isTriggerConnect
          = (Serve lib tail (st.advance fails.length)).trace.filter Event.isTriggerConnect
      ∧ (Serve lib (fails ++ tail) st).trace.filter Event.isSubscribeWrite
          = (Serve lib tail (st.advance fails.length)).trace.filter Event.isSubscribeWrite := by
  intro fails
  induction fails with
  | nil =>
    intro st _ _ _ _
    simp [ServeState.advance_zero]
  | cons a fs ih =>
    intro st hauto hpos hmax hf
    obtain ⟨err, hd⟩ := hf a (List.mem_cons_self a fs)
    have hlen : ((a :: fs).length : Int) = (fs.length : Int) + 1 := by simp
    have hmax0 : st.s.reconnectAttempt ≤ st.s.reconnectMaxRetries := by
      have : (0 : Int) ≤ (fs.length : Int) := Int.ofNat_nonneg _
      omega
    have hstep := Serve_dial_failed lib a (fs ++ tail) st err hmax0 hauto hd
    have hadv : (st.advance 1).advance fs.length = st.advance (a :: fs).length := by
      rw [ServeState.advance_advance]
      congr 1
      simp [Nat.add_comm]
    have hs1 : (st.advance 1).s.reconnectAttempt = st.s.reconnectAttempt + 1 := by
      simp [ServeState.advance]
    have ih1 := ih (st.advance 1) hauto (by rw [hs1]; omega) (by
        rw [hs1]
        have : (st.advance 1).s.reconnectMaxRetries = st.s.reconnectMaxRetries := rfl
        rw [this]; omega)
      (fun a' ha' => hf a' (List.mem_cons_of_mem a ha'))
    rw [hadv] at ih1
    obtain ⟨i1, i2, i3, i4, i5, i6⟩ := ih1
    have hgt : st.s.reconnectAttempt > 0 := by omega
    rw [List.cons_append, hstep]
    refine ⟨i1, i2, ?_, ?_, ?_, ?_⟩
    · simp only [errorsOf_append, backoff_errors, List.length_append, i3]
      simp [errorsOf]
      omega
    · have hr := range_succ_map_shift fs.length
        (fun x => (x, delayAt lib st.s x)) st.s.reconnectAttempt
      have hdl : ∀ x, delayAt lib (st.advance 1).s x = delayAt lib st.s x := fun _ => rfl
      have hnd : nextDelay lib st.s = delayAt lib st.s st.s.reconnectAttempt := rfl
      simp only [hs1, hdl] at i4
      simp only [reconnectsOf_append, reconnectsOf_backoff, hgt, if_true, i4,
        List.length_cons, hr, hnd]
      rfl
    · simp only [List.filter_append, backoff_no_connect, i5]
      rfl
    · simp only [List.filter_append, backoff_no_subscribe, i6]
      rfl

theorem startSession_errors (st : ServeState) (conn : ConnId) (w : Option Error) :
    errorsOf (startSession st conn w).trace
      = if st.s.reconnectAttempt > 0 then resubErrors w else [] := by
  cases hA : st.s.autoReconnect <;> cases w <;> by_cases h : st.s.reconnectAttempt > 0 <;>
    simp [startSession, Resubscribe, Subscribe, hA, h, errorsOf, resubErrors]

theorem startSession_reconnects (st : ServeState) (conn : ConnId) (w : Option Error) :
    reconnectsOf (startSession st conn w).trace = [] := by
  cases hA : st.s.autoReconnect <;> cases w <;> by_cases h : st.s.reconnectAttempt > 0 <;>
    simp [startSession, Resubscribe, Subscribe, hA, h, reconnectsOf]

theorem startSession_subscribes (st : ServeState) (conn : ConnId) (w : Option Error) :
    ((startSession st conn w).trace.filter Event.isSubscribeWrite).length
      = if st.s.reconnectAttempt > 0 then 1 else 0 := by
  cases hA : st.s.autoReconnect <;> cases w <;> by_cases h : st.s.reconnectAttempt > 0 <;>
    simp [startSession, Resubscribe, Subscribe, hA, h, List.filter_cons,
      Event.isSubscribeWrite, controlFrame]

/-- What the iteration with the accepted handshake contributes. -/
theorem Serve_accepted_counts (lib : Lib) (a : Attempt) (rest : List Attempt)
    (st : ServeState) (conn : ConnId) (message : Bytes) (result : List Record)
    (hmax : st.s.reconnectAttempt ≤ st.s.reconnectMaxRetries)
    (hd : a.dial = Except.ok conn) (hw : a.authWrite = none)
    (hr : a.authRead = Except.ok message)
    (hdec : decodeReply lib message = Except.ok result)
    (hc : handshakeCheck result = none) :
    (Serve lib (a :: rest) st).outcome = Outcome.waiting
    ∧ errorsOf (Serve lib (a :: rest) st).trace
        = (if st.s.reconnectAttempt > 0 then resubErrors a.resubWrite else [])
    ∧ reconnectsOf (Serve lib (a :: rest) st).trace
        = (if st.s.reconnectAttempt > 0 then [(st.s.reconnectAttempt, nextDelay lib st.s)]
           else [])
    ∧ (Serve lib (a :: rest) st).trace.filter Event.isTriggerConnect = [Event.triggerConnect]
    ∧ ((Serve lib (a :: rest) st).trace.filter Event.isSubscribeWrite).length
        = (if st.s.reconnectAttempt > 0 then 1 else 0) := by
  rw [Serve_of_accepted lib a rest st conn message result hmax hd hw hr hdec hc]
  refine ⟨rfl, ?_, ?_, ?_, ?_⟩
  · simp only [errorsOf_append, backoff_errors, startSession_errors]
    simp [errorsOf]
  · simp only [reconnectsOf_append, reconnectsOf_backoff, startSession_reconnects]
    simp [reconnectsOf]
  · simp only [List.filter_append, backoff_no_connect, startSession_connect_once]
    rfl
  · simp only [List.filter_append, backoff_no_subscribe, List.length_append,
      startSession_subscribes]
    simp [Event.isSubscribeWrite, controlFrame]

/-- The counts and the reconnect calls of a run of Serve from attempt counter 0
through k failed dials and an accepted handshake, the delays as Serve computes
them. -/
theorem Serve_streak_then_accepted (lib : Lib) (fails : List Attempt) (good : Attempt)
    (rest : List Attempt) (st : ServeState) (conn : ConnId) (message : Bytes)
    (result : List Record)
    (hauto : st.s.autoReconnect = true) (h0 : st.s.reconnectAttempt = 0)
    (hk : (fails.length : Int) ≤ st.s.reconnectMaxRetries)
    (hf : ∀ a ∈ fails, ∃ err, a.dial = Except.error err)
    (hd : good.dial = Except.ok conn) (hw : good.authWrite = none)
    (hr : good.authRead = Except.ok message)
    (hdec : decodeReply lib message = Except.ok result)
    (hc : handshakeCheck result = none) :
    (Serve lib (fails ++ good :: rest) st).outcome = Outcome.waiting
    ∧ (errorsOf (Serve lib (fails ++ good :: rest) st).trace).length
        = fails.length + (if 0 < fails.length then (resubErrors good.resubWrite).length else 0)
    ∧ reconnectsOf (Serve lib (fails ++ good :: rest) st).trace
        = (List.range fails.length).map
            (fun i : Nat => ((i : Int) + 1, delayAt lib st.s ((i : Int) + 1)))
    ∧ (Serve lib (fails ++ good :: rest) st).trace.filter Event.isTriggerConnect
        = [Event.triggerConnect]
    ∧ ((Serve lib (fails ++ good :: rest) st).trace.filter Event.isSubscribeWrite).length
        = (if 0 < fails.length then 1 else 0) := by
  cases fails with
  | nil =>
    have hmax : st.s.reconnectAttempt ≤ st.s.reconnectMaxRetries := by
      rw [h0]; simpa using hk
    obtain ⟨a1, a2, a3, a4, a5⟩ :=
      Serve_accepted_counts lib good rest st conn message result hmax hd hw hr hdec hc
    have hng : ¬ st.s.reconnectAttempt > 0 := by rw [h0]; decide
    simp only [hng, if_false] at a2 a3 a5
    simp only [List.nil_append, List.length_nil, List.range_zero, List.map_nil]
    exact ⟨a1, by rw [a2]; rfl, a3, a4, by rw [a5]; rfl⟩
  | cons a fs =>
    obtain ⟨err, hda⟩ := hf a (List.mem_cons_self a fs)
    have hlen : ((a :: fs).length : Int) = (fs.length : Int) + 1 := by simp
    have hfs : (0 : Int) ≤ (fs.length : Int) := Int.ofNat_nonneg _
    have hmax0 : st.s.reconnectAttempt ≤ st.s.reconnectMaxRetries := by
      rw [h0]; omega
    have hs1 : (st.advance 1).s.reconnectAttempt = 1 := by
      simp [ServeState.advance, h0]
    have hsk : (st.advance (1 + fs.length)).s.reconnectAttempt = (fs.length : Int) + 1 := by
      simp [ServeState.advance, h0, add_comm]
    have hmaxk : (st.advance (1 + fs.length)).s.reconnectAttempt
        ≤ (st.advance (1 + fs.length)).s.reconnectMaxRetries := by
      rw [hsk]
      have : (st.advance (1 + fs.length)).s.reconnectMaxRetries = st.s.reconnectMaxRetries := rfl
      rw [this]; omega
    have hstep := Serve_dial_failed lib a (fs ++ good :: rest) st err hmax0 hauto hda
    obtain ⟨s1, _, s3, s4, s5, s6⟩ := Serve_streak lib (good :: rest) fs (st.advance 1) hauto
      (by rw [hs1]) (by
        rw [hs1]
        have : (st.advance 1).s.reconnectMaxRetries = st.s.reconnectMaxRetries := rfl
        rw [this]; omega)
      (fun a' ha' => hf a' (List.mem_cons_of_mem a ha'))
    rw [ServeState.advance_advance] at s1 s3 s4 s5 s6
    obtain ⟨a1, a2, a3, a4, a5⟩ := Serve_accepted_counts lib good rest
      (st.advance (1 + fs.length)) conn message result hmaxk hd hw hr hdec hc
    have hpos : (st.advance (1 + fs.length)).s.reconnectAttempt > 0 := by
      rw [hsk]; omega
    simp only [hpos, if_true] at a2 a3 a5
    have hng : ¬ st.s.reconnectAttempt > 0 := by rw [h0]; decide
    have hlp : 0 < (a :: fs).length := Nat.succ_pos _
    rw [List.cons_append, hstep]
    simp only [hlp, if_true]
    refine ⟨by rw [← a1]; exact s1, ?_, ?_, ?_, ?_⟩
    · simp only [errorsOf_append, backoff_errors, List.length_append, s3, a2]
      simp [errorsOf]
      omega
    · have hdl : ∀ x, delayAt lib (st.advance 1).s x = delayAt lib st.s x := fun _ => rfl
      have hnd : nextDelay lib (st.advance (1 + fs.length)).s
          = delayAt lib st.s ((fs.length : Int) + 1) := by
        show delayAt lib (st.advance (1 + fs.length)).s
          (st.advance (1 + fs.length)).s.reconnectAttempt = _
        rw [hsk]
        rfl
      simp only [hs1, hdl] at s4
      simp only [reconnectsOf_append, reconnectsOf_backoff, hng, if_false, s4, a3, hsk, hnd,
        List.length_cons]
      rw [List.range_succ, List.map_append]
      simp only [List.map_cons, List.map_nil]
      have hmap : List.map (fun i : Nat => ((1 : Int) + i, delayAt lib st.s (1 + i)))
            (List.range fs.length)
          = List.map (fun i : Nat => ((i : Int) + 1, delayAt lib st.s ((i : Int) + 1)))
            (List.range fs.length) := by
        apply List.map_congr_left
        intro i _
        rw [add_comm]
      rw [hmap]
      simp [reconnectsOf]
    · simp only [List.filter_append, backoff_no_connect, s5, a4]
      rfl
    · simp only [List.filter_append, backoff_no_subscribe, s6, List.length_append, a5]
      rfl

/-- C4, as the code has it: with auto-reconnect on and Serve entered with the
attempt counter at 0, if the first k dials fail (k at most reconnectMaxRetries)
and the next dial succeeds with a handshake reply that passes the checks, then
by the time Serve waits for the session's goroutines: the reconnect callback
has been triggered exactly k times, the i-th call with attempt i, and for
every i up to 33 with the backoff delay min(2^i seconds, reconnectMaxDelay);
the connect callback exactly once; the subscription frame has been written
once if k > 0 and not at all if k = 0; and the error callback has been
triggered k times, plus once more when k > 0 and the write made by Resubscribe
fails.  (From attempt 34 on the int64 product of the delay overflows; those
delays are not stated here.) -/
theorem Serve_failures_then_success (lib : Lib) (fails : List Attempt) (good : Attempt)
    (rest : List Attempt) (st : ServeState) (conn : ConnId) (message : Bytes)
    (result : List Record)
    (hauto : st.s.autoReconnect = true) (h0 : st.s.reconnectAttempt = 0)
    (hk : (fails.length : Int) ≤ st.s.reconnectMaxRetries)
    (hf : ∀ a ∈ fails, ∃ err, a.dial = Except.error err)
    (hd : good.dial = Except.ok conn) (hw : good.authWrite = none)
    (hr : good.authRead = Except.ok message)
    (hdec : decodeReply lib message = Except.ok result)
    (hc : handshakeCheck result = none) :
    (Serve lib (fails ++ good :: rest) st).outcome = Outcome.waiting
    ∧ (errorsOf (Serve lib (fails ++ good :: rest) st).trace).length
        = fails.length + (if 0 < fails.length then (resubErrors good.resubWrite).length else 0)
    ∧ (reconnectsOf (Serve lib (fails ++ good :: rest) st).trace).map Prod.fst
        = (List.range fails.length).map (fun i : Nat => (i : Int) + 1)
    ∧ (∀ i : Nat, i < fails.length → i + 1 ≤ 33 →
        (reconnectsOf (Serve lib (fails ++ good :: rest) st).trace)[i]?
          = some ((i : Int) + 1, min ((2 : Int) ^ (i + 1) * Second) st.s.reconnectMaxDelay))
    ∧ (Serve lib (fails ++ good :: rest) st).trace.filter Event.isTriggerConnect
        = [Event.triggerConnect]
    ∧ ((Serve lib (fails ++ good :: rest) st).trace.filter Event.isSubscribeWrite).length
        = (if 0 < fails.length then 1 else 0) := by
  obtain ⟨k1, k2, k3, k4, k5⟩ := Serve_streak_then_accepted lib fails good rest st conn
    message result hauto h0 hk hf hd hw hr hdec hc
  refine ⟨k1, k2, ?_, ?_, k4, k5⟩
  · rw [k3, List.map_map]
    apply List.map_congr_left
    intro i _
    rfl
  · intro i hi h33
    rw [k3, List.getElem?_map, List.getElem?_range hi]
    have hnat : ((i : Int) + 1).toNat = i + 1 := by omega
    have hmin := nextDelay_eq_min lib { st.s with reconnectAttempt := (i : Int) + 1 }
      (by show (1 : Int) ≤ (i : Int) + 1; omega)
      (by show (i : Int) + 1 ≤ 33; omega)
    simp only [hnat] at hmin
    simp only [Option.map_some', delayAt, hmin]

/-- The end-to-end scenario: ceiling 2, two failed dials, then a success; the
two reconnect calls carry attempt 1 with 2s and attempt 2 with 4s. -/
theorem Serve_failures_then_success_witness :
    ((Serve exampleLib ([dialFails 1, dialFails 2] ++ replyAttempt 2 :: []) twoRetries).outcome
        = Outcome.waiting
      ∧ (errorsOf (Serve exampleLib ([dialFails 1, dialFails 2] ++ replyAttempt 2 :: [])
            twoRetries).trace).length
          = [dialFails 1, dialFails 2].length
            + (if 0 < [dialFails 1, dialFails 2].length
               then (resubErrors (replyAttempt 2).resubWrite).length else 0)
      ∧ (reconnectsOf (Serve exampleLib ([dialFails 1, dialFails 2] ++ replyAttempt 2 :: [])
            twoRetries).trace).map Prod.fst
          = (List.range [dialFails 1, dialFails 2].length).map (fun i : Nat => (i : Int) + 1)
      ∧ (∀ i : Nat, i < [dialFails 1, dialFails 2].length → i + 1 ≤ 33 →
          (reconnectsOf (Serve exampleLib ([dialFails 1, dialFails 2] ++ replyAttempt 2 :: [])
            twoRetries).trace)[i]?
            = some ((i : Int) + 1,
                min ((2 : Int) ^ (i + 1) * Second) twoRetries.s.reconnectMaxDelay))
      ∧ (Serve exampleLib ([dialFails 1, dialFails 2] ++ replyAttempt 2 :: [])
            twoRetries).trace.filter Event.isTriggerConnect
          = [Event.triggerConnect]
      ∧ ((Serve exampleLib ([dialFails 1, dialFails 2] ++ replyAttempt 2 :: [])
            twoRetries).trace.filter Event.isSubscribeWrite).length
          = (if 0 < [dialFails 1, dialFails 2].length then 1 else 0))
    ∧ reconnectsOf (Serve exampleLib ([dialFails 1, dialFails 2] ++ replyAttempt 2 :: [])
          twoRetries).trace
        = [(1, 2 * Second), (2, 4 * Second)]
    ∧ errorsOf (Serve exampleLib ([dialFails 1, dialFails 2] ++ replyAttempt 2 :: [])
          twoRetries).trace
        = [Error.ext 1, Error.ext 2] :=
  ⟨Serve_failures_then_success exampleLib [dialFails 1, dialFails 2] (replyAttempt 2) []
      twoRetries 7 [2] [[("ak", Value.str "ok")]] rfl rfl (by decide)
      (by
        intro a ha
        simp only [List.mem_cons, List.mem_singleton, List.not_mem_nil, or_false] at ha
        rcases ha with rfl | rfl
        · exact ⟨Error.ext 1, rfl⟩
        · exact ⟨Error.ext 2, rfl⟩)
      rfl rfl rfl rfl rfl,
    by decide, by decide⟩

/-- C4 fails as stated: auto-reconnect on, counter at 0, k = 1: the first dial
fails, the second succeeds and its handshake reply passes the checks, but the
write made by Resubscribe fails.  Serve reaches the wait for the session's
goroutines (connect callback triggered once, one reconnect callback), having
triggered the error callback twice, not once: for the dial and for the
subscription write. -/
theorem resubscribe_failure_adds_error :
    (ServeState.init (New "c" "t" "nse_cm|3045")).s.autoReconnect = true
    ∧ (ServeState.init (New "c" "t" "nse_cm|3045")).s.reconnectAttempt = 0
    ∧ (1 : Int) ≤ (ServeState.init (New "c" "t" "nse_cm|3045")).s.reconnectMaxRetries
    ∧ handshakeCheck [[("ak", Value.str "ok")]] = none
    ∧ (Serve exampleLib
        [dialFails 1, { replyAttempt 2 with resubWrite := some (Error.ext 9) }]
        (ServeState.init (New "c" "t" "nse_cm|3045"))).outcome = Outcome.waiting
    ∧ errorsOf (Serve exampleLib
        [dialFails 1, { replyAttempt 2 with resubWrite := some (Error.ext 9) }]
        (ServeState.init (New "c" "t" "nse_cm|3045"))).trace = [Error.ext 1, Error.ext 9]
    ∧ (errorsOf (Serve exampleLib
        [dialFails 1, { replyAttempt 2 with resubWrite := some (Error.ext 9) }]
        (ServeState.init (New "c" "t" "nse_cm|3045"))).trace).length ≠ 1 := by
  refine ⟨rfl, rfl, by decide, by decide, by decide, by decide, by decide⟩

/-! ## The join and the iteration that follows it -/

/-- A pass of readMessage never touches the client, and takes at most one off
the WaitGroup counter, only in a pass that ends the goroutine (by its return,
or by the panic of `wg.Done()` on a counter that goes negative); a pass that
leaves the counter alone does not panic. -/
theorem readMessageBody_shared (lib : Lib) (r : Except Error Bytes) (sh : Shared) :
    (readMessageBody lib r sh).sh.s = sh.s
    ∧ (((readMessageBody lib r sh).sh.wg = sh.wg
          ∧ (readMessageBody lib r sh).panicked = false)
        ∨ ((readMessageBody lib r sh).sh.wg = sh.wg - 1
            ∧ ((readMessageBody lib r sh).returned = true
                ∨ (readMessageBody lib r sh).panicked = true))) := by
  rcases r with err | msg
  · refine ⟨rfl, Or.inr ⟨rfl, ?_⟩⟩
    simp only [readMessageBody]
    cases doneIsNegative sh.wg <;> simp
  · rcases hz : readSegment lib (lib.base64Decode msg) with err | val
    · simp [readMessageBody, hz]
    · rcases hj : lib.jsonUnmarshal val with err | fm
      · simp [readMessageBody, hz, hj]
      · simp [readMessageBody, hz, hj]

/-- A read failure makes readMessage call `wg.Done()` and return, the attempt
counter untouched; the call panics instead when the counter was not positive. -/
theorem readMessageBody_read_error (lib : Lib) (err : Error) (sh : Shared) :
    readMessageBody lib (Except.error err) sh =
      { sh := { sh with wg := sh.wg - 1 }
        trace := [Event.read sh.s.Conn, Event.triggerError (Error.readingData err),
                  Event.wgDone]
        returned := !doneIsNegative sh.wg
        panicked := doneIsNegative sh.wg } := rfl

/-- A pass of checkConnection keeps the sum of WaitGroup counter and attempt
counter, and never lowers the attempt counter. -/
theorem checkConnectionBody_shared (w : Option Error) (sh : Shared) :
    (checkConnectionBody w sh).sh.wg + (checkConnectionBody w sh).sh.s.reconnectAttempt
        = sh.wg + sh.s.reconnectAttempt
    ∧ sh.s.reconnectAttempt ≤ (checkConnectionBody w sh).sh.s.reconnectAttempt
    ∧ (checkConnectionBody w sh).sh.s.autoReconnect = sh.s.autoReconnect
    ∧ (checkConnectionBody w sh).sh.s.reconnectMaxRetries = sh.s.reconnectMaxRetries := by
  cases w with
  | none => exact ⟨rfl, le_refl _, rfl, rfl⟩
  | some err =>
    refine ⟨?_, ?_, rfl, rfl⟩
    · simp only [checkConnectionBody]
      omega
    · simp only [checkConnectionBody]
      omega

/-- A failed heartbeat write raises the attempt counter by one and takes one
off the WaitGroup counter. -/
theorem checkConnectionBody_write_error (err : Error) (sh : Shared) :
    (checkConnectionBody (some err) sh).sh.s.reconnectAttempt = sh.s.reconnectAttempt + 1
    ∧ (checkConnectionBody (some err) sh).sh.wg = sh.wg - 1 := ⟨rfl, rfl⟩

/-- With checkConnection running: the counters of a session started at
attempt 0 with the WaitGroup at 2 satisfy `wg + attempt = 2` while readMessage
runs and `wg + attempt ≥ 1` afterwards. -/
theorem Session.step_inv (lib : Lib) (x : Session) (t : TaskStep)
    (h1 : x.reading = true → x.sh.wg + x.sh.s.reconnectAttempt = 2)
    (h2 : 1 ≤ x.sh.wg + x.sh.s.reconnectAttempt) :
    ((Session.step lib x t).1.reading = true →
        (Session.step lib x t).1.sh.wg + (Session.step lib x t).1.sh.s.reconnectAttempt = 2)
    ∧ 1 ≤ (Session.step lib x t).1.sh.wg + (Session.step lib x t).1.sh.s.reconnectAttempt := by
  cases t with
  | read r =>
    cases hr : x.reading with
    | false =>
      have hstep : Session.step lib x (TaskStep.read r) = (x, []) := by
        simp [Session.step, hr]
      rw [hstep]
      exact ⟨h1, h2⟩
    | true =>
      have hsum := h1 hr
      obtain ⟨hs, hw⟩ := readMessageBody_shared lib r x.sh
      simp only [Session.step, hr, if_true]
      rw [hs]
      rcases hw with ⟨hw, _⟩ | ⟨hw, hret⟩
      · rw [hw]
        exact ⟨fun _ => hsum, h2⟩
      · rw [hw]
        refine ⟨fun h => ?_, by omega⟩
        rcases hret with hret | hret <;> simp [hret] at h
  | heartbeat w =>
    cases hc : x.checking with
    | false =>
      have hstep : Session.step lib x (TaskStep.heartbeat w) = (x, []) := by
        simp [Session.step, hc]
      rw [hstep]
      exact ⟨h1, h2⟩
    | true =>
      obtain ⟨hsum, _, _, _⟩ := checkConnectionBody_shared w x.sh
      simp only [Session.step, hc, if_true]
      rw [hsum]
      refine ⟨fun h => h1 ?_, h2⟩
      simp only [Bool.and_eq_true] at h
      exact h.1

theorem Session.run_inv (lib : Lib) (sched : List TaskStep) :
    ∀ x : Session,
      (x.reading = true → x.sh.wg + x.sh.s.reconnectAttempt = 2) →
      1 ≤ x.sh.wg + x.sh.s.reconnectAttempt →
      1 ≤ (Session.run lib sched x).1.sh.wg + (Session.run lib sched x).1.sh.s.reconnectAttempt := by
  induction sched with
  | nil => intro x _ h2; exact h2
  | cons t rest ih =>
    intro x h1 h2
    obtain ⟨k1, k2⟩ := Session.step_inv lib x t h1 h2
    exact ih (Session.step lib x t).1 k1 k2

/-- Without checkConnection nothing in a session changes the attempt counter. -/
theorem Session.run_read_only (lib : Lib) (sched : List TaskStep) :
    ∀ x : Session, x.checking = false →
      (Session.run lib sched x).1.sh.s = x.sh.s := by
  induction sched with
  | nil => intro x _; rfl
  | cons t rest ih =>
    intro x hc
    have hstep : (Session.step lib x t).1.checking = false
        ∧ (Session.step lib x t).1.sh.s = x.sh.s := by
      cases t with
      | read r =>
        cases hr : x.reading with
        | false => simp [Session.step, hr, hc]
        | true =>
          simp only [Session.step, hr, if_true]
          exact ⟨by simp [hc], (readMessageBody_shared lib r x.sh).1⟩
      | heartbeat w => simp [Session.step, hc]
    simp only [Session.run]
    rw [ih _ hstep.1, hstep.2]

/-- The client fields a session never changes. -/
theorem Session.run_policy (lib : Lib) (sched : List TaskStep) :
    ∀ x : Session,
      (Session.run lib sched x).1.sh.s.autoReconnect = x.sh.s.autoReconnect
      ∧ (Session.run lib sched x).1.sh.s.reconnectMaxRetries = x.sh.s.reconnectMaxRetries := by
  induction sched with
  | nil => intro x; exact ⟨rfl, rfl⟩
  | cons t rest ih =>
    intro x
    have hstep : (Session.step lib x t).1.sh.s.autoReconnect = x.sh.s.autoReconnect
        ∧ (Session.step lib x t).1.sh.s.reconnectMaxRetries = x.sh.s.reconnectMaxRetries := by
      cases t with
      | read r =>
        cases hr : x.reading with
        | false => simp [Session.step, hr]
        | true =>
          simp only [Session.step, hr, if_true]
          rw [(readMessageBody_shared lib r x.sh).1]
          exact ⟨rfl, rfl⟩
      | heartbeat w =>
        cases hc : x.checking with
        | false => simp [Session.step, hc]
        | true =>
          simp only [Session.step, hc, if_true]
          obtain ⟨_, _, k3, k4⟩ := checkConnectionBody_shared w x.sh
          exact ⟨k3, k4⟩
    simp only [Session.run]
    obtain ⟨i1, i2⟩ := ih (Session.step lib x t).1
    exact ⟨i1.trans hstep.1, i2.trans hstep.2⟩

/-- Every pass of the loop body begins with the backoff phase and the dial. -/
theorem connect_trace_head (lib : Lib) (a : Attempt) (st : ServeState) :
    ∃ tl, (connect lib a st).trace
      = backoff lib st.s ++ Event.dial st.s.url st.s.connectTimeout :: tl := by
  rcases hd : a.dial with err | conn
  · cases hA : st.s.autoReconnect
    · exact ⟨_, by simp only [connect, hd, hA, List.append_assoc, List.singleton_append, List.cons_append]; rfl⟩
    · exact ⟨_, by simp only [connect, hd, hA, List.append_assoc, List.singleton_append, List.cons_append]; rfl⟩
  · rcases hw : a.authWrite with _ | err
    · rcases hr : a.authRead with err | message
      · exact ⟨_, by simp only [connect, hd, hw, hr, List.append_assoc, List.singleton_append, List.cons_append]; rfl⟩
      · rcases hdec : decodeReply lib message with err | result
        · exact ⟨_, by simp only [connect, hd, hw, hr, hdec, List.append_assoc, List.singleton_append, List.cons_append]; rfl⟩
        · rcases hc : handshakeCheck result with _ | err
          · exact ⟨_, by simp only [connect, hd, hw, hr, hdec, hc, List.append_assoc, List.singleton_append, List.cons_append]; rfl⟩
          · exact ⟨_, by simp only [connect, hd, hw, hr, hdec, hc, List.append_assoc, List.singleton_append, List.cons_append]; rfl⟩
    · exact ⟨_, by simp only [connect, hd, hw, List.append_assoc, List.singleton_append, List.cons_append]; rfl⟩

/-- An iteration of Serve below the ceiling begins with the backoff phase and
the dial. -/
theorem Serve_trace_head (lib : Lib) (a : Attempt) (rest : List Attempt) (st : ServeState)
    (hmax : st.s.reconnectAttempt ≤ st.s.reconnectMaxRetries) :
    ∃ tl, (Serve lib (a :: rest) st).trace
      = backoff lib st.s ++ Event.dial st.s.url st.s.connectTimeout :: tl := by
  have hnot : ¬ st.s.reconnectAttempt > st.s.reconnectMaxRetries := not_lt.mpr hmax
  obtain ⟨tl, htl⟩ := connect_trace_head lib a st
  simp only [Serve, hnot, if_false]
  cases hctl : (connect lib a st).ctl with
  | next => exact ⟨tl ++ (Serve lib rest (connect lib a st).st).trace, by simp [htl]⟩
  | ret => exact ⟨tl ++ runDeferred (connect lib a st).st, by simp [htl]⟩
  | wait => exact ⟨tl, by simp [htl]⟩

/-- Serve blocks in `wg.Wait()` with the attempt counter reset and the
WaitGroup counting the goroutines it started: two with auto-reconnect on, one
with it off. -/
theorem Serve_waiting_state (lib : Lib) (script : List Attempt) :
    ∀ st : ServeState, (Serve lib script st).outcome = Outcome.waiting →
      (Serve lib script st).st.s.reconnectAttempt = 0
      ∧ (Serve lib script st).st.wg = (if (Serve lib script st).st.s.autoReconnect then 2 else 1)
      ∧ (Serve lib script st).st.s.reconnectMaxRetries = st.s.reconnectMaxRetries := by
  induction script with
  | nil =>
    intro st h
    by_cases hg : st.s.reconnectAttempt > st.s.reconnectMaxRetries
    · simp only [Serve, hg, if_true, giveUp] at h
      exact absurd h (exitOutcome_ne_waiting st)
    · simp [Serve, hg] at h
  | cons a rest ih =>
    intro st h
    by_cases hg : st.s.reconnectAttempt > st.s.reconnectMaxRetries
    · simp only [Serve, hg, if_true, giveUp] at h
      exact absurd h (exitOutcome_ne_waiting st)
    · simp only [Serve, hg, if_false] at h ⊢
      cases hctl : (connect lib a st).ctl with
      | next =>
        simp only [hctl] at h ⊢
        obtain ⟨i1, i2, i3⟩ := ih (connect lib a st).st h
        refine ⟨i1, i2, i3.trans ?_⟩
        rcases hd : a.dial with err | conn
        · cases hA : st.s.autoReconnect
          · simp [connect, hd, hA] at hctl
          · simp [connect, hd, hA]
        · obtain ⟨tl, _⟩ := connect_trace_head lib a st
          rcases hw : a.authWrite with _ | err
          · rcases hr : a.authRead with err | message
            · simp [connect, hd, hw, hr] at hctl
            · rcases hdec : decodeReply lib message with err | result
              · simp [connect, hd, hw, hr, hdec] at hctl
              · rcases hc : handshakeCheck result with _ | err
                · simp [connect, hd, hw, hr, hdec, hc, startSession] at hctl
                · simp [connect, hd, hw, hr, hdec, hc] at hctl
          · simp [connect, hd, hw] at hctl
      | ret =>
        simp only [hctl] at h
        exact absurd h (exitOutcome_ne_waiting _)
      | wait =>
        simp only [hctl]
        obtain ⟨conn, message, result, hd, hw, hr, hdec, hc⟩ := connect_wait_inv lib a st hctl
        rw [connect_of_accepted lib a st conn message result hd hw hr hdec hc]
        exact ⟨rfl, rfl, rfl⟩

/-- C7, as the code has it: a failed heartbeat write in checkConnection raises
reconnectAttempt by one and signals the join; a failed read in readMessage
signals the join and leaves reconnectAttempt as it is.  For a session Serve is
waiting on, once the join is complete: with auto-reconnect on the attempt
counter is positive, and the next iteration, if the counter is within the
ceiling, begins with the reconnect callback and the sleep for the computed
delay, before any dial; with auto-reconnect off the attempt counter is still
0, and the next iteration (ceiling not negative) begins with the dial. -/
theorem join_then_next_iteration (lib : Lib) (script : List Attempt) (st0 : ServeState)
    (sched : List TaskStep) (a : Attempt) (rest : List Attempt)
    (hrun : (Serve lib script st0).outcome = Outcome.waiting)
    (hj : (Session.run lib sched (Session.start (Serve lib script st0).st)).1.joined = true) :
    (∀ (err : Error) (sh : Shared),
        (checkConnectionBody (some err) sh).sh.s.reconnectAttempt = sh.s.reconnectAttempt + 1
        ∧ (checkConnectionBody (some err) sh).sh.wg = sh.wg - 1)
    ∧ (∀ (err : Error) (sh : Shared),
        (readMessageBody lib (Except.error err) sh).sh.s.reconnectAttempt
          = sh.s.reconnectAttempt
        ∧ (readMessageBody lib (Except.error err) sh).sh.wg = sh.wg - 1)
    ∧ ((Serve lib script st0).st.s.autoReconnect = true →
        0 < (resume lib script st0 sched).s.reconnectAttempt
        ∧ ((resume lib script st0 sched).s.reconnectAttempt
              ≤ (resume lib script st0 sched).s.reconnectMaxRetries →
            ∃ tl, (Serve lib (a :: rest) (resume lib script st0 sched)).trace
              = Event.triggerReconnect (resume lib script st0 sched).s.reconnectAttempt
                  (nextDelay lib (resume lib script st0 sched).s)
                :: Event.sleep (nextDelay lib (resume lib script st0 sched).s) :: tl))
    ∧ ((Serve lib script st0).st.s.autoReconnect = false →
        (resume lib script st0 sched).s.reconnectAttempt = 0
        ∧ (0 ≤ (resume lib script st0 sched).s.reconnectMaxRetries →
            ∃ tl, (Serve lib (a :: rest) (resume lib script st0 sched)).trace
              = Event.dial (resume lib script st0 sched).s.url
                  (resume lib script st0 sched).s.connectTimeout :: tl)) := by
  obtain ⟨hat, hwg, _⟩ := Serve_waiting_state lib script st0 hrun
  have hjw : (Session.run lib sched (Session.start (Serve lib script st0).st)).1.sh.wg = 0 := by
    simpa [Session.joined] using hj
  refine ⟨fun err sh => checkConnectionBody_write_error err sh, fun err sh => ⟨rfl, rfl⟩, ?_, ?_⟩
  · intro hauto
    rw [hauto] at hwg
    have hinv := Session.run_inv lib sched (Session.start (Serve lib script st0).st)
      (by intro _; simp only [Session.start]; rw [hwg, hat]; rfl)
      (by simp only [Session.start]; rw [hwg, hat]; decide)
    rw [hjw] at hinv
    have hpos : 0 < (resume lib script st0 sched).s.reconnectAttempt := by
      simp only [resume, ServeState.afterJoin]
      omega
    refine ⟨hpos, ?_⟩
    intro hmax
    obtain ⟨tl, htl⟩ := Serve_trace_head lib a rest (resume lib script st0 sched) hmax
    rw [htl]
    unfold backoff
    rw [if_pos hpos]
    exact ⟨_, rfl⟩
  · intro hauto
    have hs := Session.run_read_only lib sched (Session.start (Serve lib script st0).st)
      (by simp only [Session.start]; exact hauto)
    have hzero : (resume lib script st0 sched).s.reconnectAttempt = 0 := by
      simp only [resume, ServeState.afterJoin]
      rw [hs]
      exact hat
    refine ⟨hzero, ?_⟩
    intro hmax
    obtain ⟨tl, htl⟩ := Serve_trace_head lib a rest (resume lib script st0 sched)
      (by rw [hzero]; exact hmax)
    rw [htl]
    unfold backoff
    rw [if_neg (by rw [hzero]; decide)]
    exact ⟨tl, rfl⟩

/-- The join after a failed read followed by a failed heartbeat write, auto-reconnect on. -/
theorem join_then_next_iteration_witness :
    (∀ (err : Error) (sh : Shared),
        (checkConnectionBody (some err) sh).sh.s.reconnectAttempt = sh.s.reconnectAttempt + 1
        ∧ (checkConnectionBody (some err) sh).sh.wg = sh.wg - 1)
    ∧ (∀ (err : Error) (sh : Shared),
        (readMessageBody exampleLib (Except.error err) sh).sh.s.reconnectAttempt
          = sh.s.reconnectAttempt
        ∧ (readMessageBody exampleLib (Except.error err) sh).sh.wg = sh.wg - 1)
    ∧ ((Serve exampleLib [replyAttempt 2]
          (ServeState.init (New "c" "t" "nse_cm|3045"))).st.s.autoReconnect = true →
        0 < (resume exampleLib [replyAttempt 2] (ServeState.init (New "c" "t" "nse_cm|3045"))
              brokenSession).s.reconnectAttempt
        ∧ ((resume exampleLib [replyAttempt 2] (ServeState.init (New "c" "t" "nse_cm|3045"))
              brokenSession).s.reconnectAttempt
              ≤ (resume exampleLib [replyAttempt 2]
                  (ServeState.init (New "c" "t" "nse_cm|3045"))
                  brokenSession).s.reconnectMaxRetries →
            ∃ tl, (Serve exampleLib (replyAttempt 2 :: [])
                (resume exampleLib [replyAttempt 2]
                  (ServeState.init (New "c" "t" "nse_cm|3045")) brokenSession)).trace
              = Event.triggerReconnect
                  (resume exampleLib [replyAttempt 2]
                    (ServeState.init (New "c" "t" "nse_cm|3045"))
                    brokenSession).s.reconnectAttempt
                  (nextDelay exampleLib (resume exampleLib [replyAttempt 2]
                    (ServeState.init (New "c" "t" "nse_cm|3045")) brokenSession).s)
                :: Event.sleep (nextDelay exampleLib (resume exampleLib [replyAttempt 2]
                    (ServeState.init (New "c" "t" "nse_cm|3045")) brokenSession).s) :: tl))
    ∧ ((Serve exampleLib [replyAttempt 2]
          (ServeState.init (New "c" "t" "nse_cm|3045"))).st.s.autoReconnect = false →
        (resume exampleLib [replyAttempt 2] (ServeState.init (New "c" "t" "nse_cm|3045"))
            brokenSession).s.reconnectAttempt = 0
        ∧ (0 ≤ (resume exampleLib [replyAttempt 2]
              (ServeState.init (New "c" "t" "nse_cm|3045"))
              brokenSession).s.reconnectMaxRetries →
            ∃ tl, (Serve exampleLib (replyAttempt 2 :: [])
                (resume exampleLib [replyAttempt 2]
                  (ServeState.init (New "c" "t" "nse_cm|3045")) brokenSession)).trace
              = Event.dial (resume exampleLib [replyAttempt 2]
                    (ServeState.init (New "c" "t" "nse_cm|3045")) brokenSession).s.url
                  (resume exampleLib [replyAttempt 2]
                    (ServeState.init (New "c" "t" "nse_cm|3045"))
                    brokenSession).s.connectTimeout :: tl)) :=
  join_then_next_iteration exampleLib [replyAttempt 2]
    (ServeState.init (New "c" "t" "nse_cm|3045")) brokenSession (replyAttempt 2) []
    (by decide) (by decide)

/-- C7 fails as stated: with auto-reconnect off, Serve connects and starts
only readMessage; a read failure completes the join with reconnectAttempt
still 0 (the read failure did not increment it), and the iteration that
follows dials at once: its trace starts with the dial and holds no reconnect
callback and no sleep. -/
theorem read_failure_skips_backoff :
    (Serve exampleLib [replyAttempt 2]
        (ServeState.init (SetAutoReconnect (New "c" "t" "nse_cm|3045") false))).outcome
      = Outcome.waiting
    ∧ (Session.run exampleLib [TaskStep.read (Except.error (Error.ext 5))]
        (Session.start (Serve exampleLib [replyAttempt 2]
          (ServeState.init (SetAutoReconnect (New "c" "t" "nse_cm|3045") false))).st)).1.joined
      = true
    ∧ (resume exampleLib [replyAttempt 2]
        (ServeState.init (SetAutoReconnect (New "c" "t" "nse_cm|3045") false))
        [TaskStep.read (Except.error (Error.ext 5))]).s.reconnectAttempt = 0
    ∧ (Serve exampleLib [replyAttempt 2]
        (resume exampleLib [replyAttempt 2]
          (ServeState.init (SetAutoReconnect (New "c" "t" "nse_cm|3045") false))
          [TaskStep.read (Except.error (Error.ext 5))])).trace.head?.map Event.isDial
      = some true
    ∧ reconnectsOf (Serve exampleLib [replyAttempt 2]
        (resume exampleLib [replyAttempt 2]
          (ServeState.init (SetAutoReconnect (New "c" "t" "nse_cm|3045") false))
          [TaskStep.read (Except.error (Error.ext 5))])).trace = []
    ∧ (Serve exampleLib [replyAttempt 2]
        (resume exampleLib [replyAttempt 2]
          (ServeState.init (SetAutoReconnect (New "c" "t" "nse_cm|3045") false))
          [TaskStep.read (Except.error (Error.ext 5))])).trace.any Event.isSleep = false := by
  refine ⟨by decide, by decide, by decide, by decide, by decide, by decide⟩

end Websocket
